import Mathlib

/-!
Verification of the vibe-print / bambustudio print-orchestration server.

This file shallowly embeds the parts of the Python source that the checked
claims are about:

* `src/bambustudio_mcp/materials/filaments.py` — filament profiles and lookup
  (the `vibe_print.materials.filaments` module imported by the optimizer is
  absent from the tree; the sibling `bambustudio_mcp` package provides the
  same registry and is used as the source here).
* `src/vibe_print/wizard/material_optimizer.py` — the parameter optimizer.
* `src/vibe_print/camera/detector.py` — quality score / should-pause.
* `src/vibe_print/iteration/recommender.py` — the recommender.
* `src/bambustudio_mcp/wizard/slicing_review.py` — the slicing recipe.
* `src/bambustudio_mcp/printer/controller.py` — the print-job lifecycle.
* `src/bambustudio_mcp/printer/status.py` — MQTT report parsing.
* `src/bambustudio_mcp/iteration/tracker.py` — the iteration store.
* `src/bambustudio_mcp/wizard/guided_workflow.py` — the checkpoint engine.

Python numbers (ints and floats) are modelled as rationals; Python `dict`
parameter bags with a fixed key set are modelled as structures of `Option`
fields (a key that may be absent is `none`).
-/

namespace VibePrint

/-- Python `int(x)` on a float/rational: truncation toward zero. -/
def pytrunc (x : ℚ) : ℤ := if 0 ≤ x then ⌊x⌋ else ⌈x⌉

theorem pytrunc_le {x : ℚ} (h : 0 ≤ x) : (pytrunc x : ℚ) ≤ x := by
  simp only [pytrunc, if_pos h]
  exact_mod_cast Int.floor_le x

theorem le_pytrunc {x : ℚ} (h : x ≤ 0) : x ≤ (pytrunc x : ℚ) := by
  by_cases h0 : 0 ≤ x
  · simp only [pytrunc, if_pos h0]
    have : x = 0 := le_antisymm h h0
    simp [this]
  · simp only [pytrunc, if_neg h0]
    exact_mod_cast Int.le_ceil x

theorem pytrunc_nonpos {x : ℚ} (h : x ≤ 0) : (pytrunc x : ℚ) ≤ 0 := by
  by_cases h0 : 0 ≤ x
  · have : x = 0 := le_antisymm h h0
    simp [pytrunc, this]
  · simp only [pytrunc, if_neg h0]
    have := Int.ceil_le.mpr (le_of_lt (lt_of_le_of_ne h (fun hx => h0 (le_of_eq hx.symm))))
    calc ((⌈x⌉ : ℤ) : ℚ) ≤ ((0 : ℤ) : ℚ) := by exact_mod_cast Int.ceil_le.mpr h
    _ = 0 := by norm_num

/-- Round half to even on a rational (the tie-breaking Python's `round` uses). -/
def roundHalfEven (x : ℚ) : ℤ :=
  let f := ⌊x⌋
  let r := x - f
  if r < 1/2 then f
  else if 1/2 < r then f + 1
  else if f % 2 = 0 then f else f + 1

theorem abs_roundHalfEven_sub_le (x : ℚ) : |((roundHalfEven x : ℚ)) - x| ≤ 1/2 := by
  have hf : (⌊x⌋ : ℚ) ≤ x := Int.floor_le x
  have hf' : x < (⌊x⌋ : ℚ) + 1 := Int.lt_floor_add_one x
  unfold roundHalfEven
  dsimp only
  split_ifs with h1 h2 h3 <;>
    · rw [abs_le]
      constructor <;> push_cast <;> linarith

/-- Python `round(x, 2)` modelled on rationals. -/
def round2 (x : ℚ) : ℚ := (roundHalfEven (100 * x) : ℚ) / 100

theorem abs_round2_sub_le (x : ℚ) : |round2 x - x| ≤ 1/200 := by
  have h := abs_roundHalfEven_sub_le (100 * x)
  unfold round2
  rw [abs_le] at h ⊢
  constructor <;> [linarith [h.1]; linarith [h.2]]

/-! ### Material knowledge base

From `src/bambustudio_mcp/materials/filaments.py`.  Only the profile fields the
optimizer and the slicing recipe read are embedded.  The `FilamentType` enum
also carries `TPE`, which the optimizer's cooling rule references and which the
missing `vibe_print.materials.filaments` module therefore must declare. -/

inductive FilamentType where
  | PLA | PETG | PC | TPU | TPE | ABS | ASA | NYLON | PLA_CF | PETG_CF
  deriving DecidableEq, Repr

inductive FlexRating where
  | rigid | semi_rigid | semi_flex | flexible
  deriving DecidableEq, Repr

structure TemperatureRange where
  min_temp : ℚ
  optimal : ℚ
  max_temp : ℚ
  deriving DecidableEq, Repr

structure FilamentProfile where
  name : String
  material_type : FilamentType
  nozzle_temp : TemperatureRange
  bed_temp : TemperatureRange
  max_print_speed : ℚ
  max_volumetric_flow : ℚ
  retraction_length : ℚ
  retraction_speed : ℚ
  flex_rating : FlexRating
  ams_compatible : Bool
  deriving DecidableEq, Repr

/-- `FilamentProfile.is_flexible` property. -/
def FilamentProfile.is_flexible (p : FilamentProfile) : Bool :=
  p.flex_rating = FlexRating.flexible || p.flex_rating = FlexRating.semi_flex

/-- `filament_type` is an alias of `material_type` in the source. -/
def FilamentProfile.filament_type (p : FilamentProfile) : FilamentType :=
  p.material_type

def BAMBU_PLA : FilamentProfile :=
  { name := "Bambu Basic PLA"
    material_type := .PLA
    nozzle_temp := ⟨190, 220, 230⟩
    bed_temp := ⟨45, 55, 65⟩
    max_print_speed := 300
    max_volumetric_flow := 21
    retraction_length := 4/5
    retraction_speed := 30
    flex_rating := .rigid
    ams_compatible := true }

def BAMBU_PETG_TRANSLUCENT : FilamentProfile :=
  { name := "Bambu PETG Translucent"
    material_type := .PETG
    nozzle_temp := ⟨230, 245, 260⟩
    bed_temp := ⟨70, 80, 90⟩
    max_print_speed := 200
    max_volumetric_flow := 12
    retraction_length := 3/5
    retraction_speed := 25
    flex_rating := .rigid
    ams_compatible := true }

def PRUSA_PC_BLEND : FilamentProfile :=
  { name := "Prusament PC Blend"
    material_type := .PC
    nozzle_temp := ⟨265, 275, 285⟩
    bed_temp := ⟨100, 110, 115⟩
    max_print_speed := 150
    max_volumetric_flow := 8
    retraction_length := 3/5
    retraction_speed := 25
    flex_rating := .rigid
    ams_compatible := true }

def GENERIC_PETG : FilamentProfile :=
  { name := "Generic PETG"
    material_type := .PETG
    nozzle_temp := ⟨220, 240, 260⟩
    bed_temp := ⟨70, 80, 90⟩
    max_print_speed := 150
    max_volumetric_flow := 10
    retraction_length := 4/5
    retraction_speed := 25
    flex_rating := .rigid
    ams_compatible := true }

def GENERIC_TPU_95A : FilamentProfile :=
  { name := "Generic TPU 95A"
    material_type := .TPU
    nozzle_temp := ⟨210, 230, 240⟩
    bed_temp := ⟨30, 45, 60⟩
    max_print_speed := 40
    max_volumetric_flow := 16/5
    retraction_length := 1/2
    retraction_speed := 20
    flex_rating := .semi_flex
    ams_compatible := false }

/-- Key normalization in `get_filament_profile`:
`name.lower().replace(" ", "_").replace("-", "_")` (ASCII inputs). -/
def normKey (s : String) : String :=
  ⟨s.data.map (fun c => if c = ' ' ∨ c = '-' then '_' else c.toLower)⟩

/-- `get_filament_profile` — lookup in the `FILAMENT_PROFILES` dict, whose 12
distinct keys are grouped here by the profile they map to. -/
def getFilamentProfile (s : String) : Option FilamentProfile :=
  let k := normKey s
  if k = "bambu_pla" ∨ k = "bambu_basic_pla" then some BAMBU_PLA
  else if k = "bambu_petg" ∨ k = "bambu_petg_translucent" then some BAMBU_PETG_TRANSLUCENT
  else if k = "prusa_pc" ∨ k = "prusa_pc_blend" ∨ k = "prusament_pc" then some PRUSA_PC_BLEND
  else if k = "generic_petg" ∨ k = "petg" then some GENERIC_PETG
  else if k = "generic_tpu" ∨ k = "tpu_95a" ∨ k = "tpu" then some GENERIC_TPU_95A
  else none

theorem getFilamentProfile_cases (s : String) :
    getFilamentProfile s = none ∨
    getFilamentProfile s = some BAMBU_PLA ∨
    getFilamentProfile s = some BAMBU_PETG_TRANSLUCENT ∨
    getFilamentProfile s = some PRUSA_PC_BLEND ∨
    getFilamentProfile s = some GENERIC_PETG ∨
    getFilamentProfile s = some GENERIC_TPU_95A := by
  unfold getFilamentProfile
  dsimp only
  split_ifs <;> simp

end VibePrint

namespace VibePrint

/-! ### Parameter optimizer

From `src/vibe_print/wizard/material_optimizer.py`.  The parameter dict is
modelled as a structure of `Option` fields covering exactly the keys the
optimizer reads or writes (other keys pass through untouched in the source).
The `get_nozzle_profile` result is fetched but never used by
`optimize_for_material`, so it is not embedded.  Reason strings are abbreviated
forms of the source's f-strings; no claim inspects their text. -/

/-- A Python value appearing in the optimizer's change log. -/
inductive PyVal where
  | num (q : ℚ)
  | bool (b : Bool)
  deriving DecidableEq, Repr

/-- One entry of the optimizer's change log
(`{parameter, old_value, new_value, reason}`). -/
structure Change where
  parameter : String
  old_value : Option PyVal
  new_value : Option PyVal
  reason : String
  deriving DecidableEq, Repr

/-- The parameter-dict keys touched by `MaterialOptimizer`. `none` = key absent. -/
@[ext]
structure OptimParams where
  nozzle_temp : Option ℚ := none
  bed_temp : Option ℚ := none
  outer_wall_speed : Option ℚ := none
  inner_wall_speed : Option ℚ := none
  infill_speed : Option ℚ := none
  layer_height : Option ℚ := none
  line_width : Option ℚ := none
  retraction_length : Option ℚ := none
  retraction_speed : Option ℚ := none
  fan_speed : Option ℚ := none
  fan_min_layer_time : Option ℚ := none
  brim_width : Option ℚ := none
  initial_layer_speed : Option ℚ := none
  initial_layer_height : Option ℚ := none
  wall_loops : Option ℚ := none
  sparse_infill_density : Option ℚ := none
  enable_draft_shield : Option Bool := none
  z_hop_enabled : Option Bool := none
  z_hop_height : Option ℚ := none
  deriving DecidableEq, Repr

/-- Mutable optimizer state: the params plus the accumulated
`changes` / `warnings` / `notes` lists. -/
structure OptSt where
  p : OptimParams
  changes : List Change
  warnings : List String
  notes : List String
  deriving DecidableEq, Repr

/-- `MaterialOptimizer._record_change`: append only when the value changed. -/
def recChange (st : OptSt) (param : String) (old new : Option PyVal) (reason : String) :
    OptSt :=
  if old ≠ new then
    { st with changes := st.changes ++ [⟨param, old, new, reason⟩] }
  else st

/-- Nozzle-temperature block of `_optimize_temperatures`. -/
def tempNozzleStage (mat : FilamentProfile) (st : OptSt) : OptSt :=
  match st.p.nozzle_temp with
  | some old =>
    if old < mat.nozzle_temp.min_temp then
      recChange { st with p := { st.p with nozzle_temp := some mat.nozzle_temp.optimal } }
        "nozzle_temp" (some (.num old)) (some (.num mat.nozzle_temp.optimal))
        "requires at least the minimum temperature"
    else if old > mat.nozzle_temp.max_temp then
      recChange { st with p := { st.p with nozzle_temp := some mat.nozzle_temp.optimal } }
        "nozzle_temp" (some (.num old)) (some (.num mat.nozzle_temp.optimal))
        "degrades above the maximum temperature"
    else st
  | none =>
    recChange { st with p := { st.p with nozzle_temp := some mat.nozzle_temp.optimal } }
      "nozzle_temp" none (some (.num mat.nozzle_temp.optimal))
      "Set optimal temperature"

/-- Bed-temperature block of `_optimize_temperatures` (only the minimum is
checked for a present value). -/
def tempBedStage (mat : FilamentProfile) (st : OptSt) : OptSt :=
  match st.p.bed_temp with
  | some old =>
    if old < mat.bed_temp.min_temp then
      recChange { st with p := { st.p with bed_temp := some mat.bed_temp.optimal } }
        "bed_temp" (some (.num old)) (some (.num mat.bed_temp.optimal))
        "needs bed at least the minimum temperature"
    else st
  | none =>
    recChange { st with p := { st.p with bed_temp := some mat.bed_temp.optimal } }
      "bed_temp" none (some (.num mat.bed_temp.optimal))
      "Set optimal bed temperature"

/-- `MaterialOptimizer._optimize_temperatures`. -/
def optimizeTemperatures (mat : FilamentProfile) (st : OptSt) : OptSt :=
  tempBedStage mat (tempNozzleStage mat st)

/-- Outer-wall cap of `_optimize_speeds`: at most `max_print_speed × 0.5`. -/
def speedOuterStage (mat : FilamentProfile) (st : OptSt) : OptSt :=
  match st.p.outer_wall_speed with
  | some old =>
    let opt := min old (mat.max_print_speed * (1/2))
    if old > opt then
      recChange { st with p := { st.p with outer_wall_speed := some ((pytrunc opt : ℤ) : ℚ) } }
        "outer_wall_speed" (some (.num old)) (some (.num ((pytrunc opt : ℤ) : ℚ)))
        "prints better at slower outer wall speeds"
    else st
  | none => st

/-- Inner-wall cap of `_optimize_speeds`: at most `max_print_speed × 0.7`. -/
def speedInnerStage (mat : FilamentProfile) (st : OptSt) : OptSt :=
  match st.p.inner_wall_speed with
  | some old =>
    let opt := min old (mat.max_print_speed * (7/10))
    if old > opt then
      recChange { st with p := { st.p with inner_wall_speed := some ((pytrunc opt : ℤ) : ℚ) } }
        "inner_wall_speed" (some (.num old)) (some (.num ((pytrunc opt : ℤ) : ℚ)))
        "Reduced for quality"
    else st
  | none => st

/-- Infill cap of `_optimize_speeds`: at most `max_print_speed`. -/
def speedInfillStage (mat : FilamentProfile) (st : OptSt) : OptSt :=
  match st.p.infill_speed with
  | some old =>
    let opt := min old mat.max_print_speed
    if old > opt then
      recChange { st with p := { st.p with infill_speed := some ((pytrunc opt : ℤ) : ℚ) } }
        "infill_speed" (some (.num old)) (some (.num ((pytrunc opt : ℤ) : ℚ)))
        "material max speed"
    else st
  | none => st

/-- Volumetric-flow check of `_optimize_speeds` (runs after the caps; defaults:
layer height 0.2, line width `nozzle × 1.1`, outer speed 50). -/
def speedVolumetricStage (mat : FilamentProfile) (nd : ℚ) (st : OptSt) : OptSt :=
  let lh := st.p.layer_height.getD (1/5)
  let lw := st.p.line_width.getD (nd * (11/10))
  let os := st.p.outer_wall_speed.getD 50
  if lh * lw * os > mat.max_volumetric_flow then
    let safe := mat.max_volumetric_flow / (lh * lw)
    let nv : ℚ := ((pytrunc (safe * (9/10)) : ℤ) : ℚ)
    let st :=
      recChange { st with p := { st.p with outer_wall_speed := some nv } }
        "outer_wall_speed" (some (.num os)) (some (.num nv))
        "Reduced to stay within the volumetric flow limit"
    { st with notes := st.notes ++ ["Volumetric flow limited for this material"] }
  else st

/-- `MaterialOptimizer._optimize_speeds`. -/
def optimizeSpeeds (mat : FilamentProfile) (nd : ℚ) (st : OptSt) : OptSt :=
  speedVolumetricStage mat nd (speedInfillStage mat (speedInnerStage mat (speedOuterStage mat st)))

/-- Retraction-length snap of `_optimize_retraction` (when off by > 0.2 mm). -/
def retrLenStage (mat : FilamentProfile) (st : OptSt) : OptSt :=
  let oldL := st.p.retraction_length.getD (4/5)
  if |oldL - mat.retraction_length| > 1/5 then
    recChange { st with p := { st.p with retraction_length := some mat.retraction_length } }
      "retraction_length" (some (.num oldL)) (some (.num mat.retraction_length))
      "Optimal retraction"
  else st

/-- Retraction-speed snap of `_optimize_retraction` (when off by > 5 mm/s). -/
def retrSpeedStage (mat : FilamentProfile) (st : OptSt) : OptSt :=
  let oldS := st.p.retraction_speed.getD 30
  if |oldS - mat.retraction_speed| > 5 then
    recChange { st with p := { st.p with retraction_speed := some mat.retraction_speed } }
      "retraction_speed" (some (.num oldS)) (some (.num mat.retraction_speed))
      "Optimal retraction speed"
  else st

/-- Flexible-material cap of `_optimize_retraction`; `oldL` is the length read
at entry to `_optimize_retraction` (it is what the change log records). -/
def retrFlexStage (mat : FilamentProfile) (oldL : ℚ) (st : OptSt) : OptSt :=
  if mat.is_flexible then
    let st :=
      if st.p.retraction_length.getD 0 > 1 then
        recChange { st with p := { st.p with retraction_length := some (1/2) } }
          "retraction_length" (some (.num oldL)) (some (.num (1/2)))
          "Flexible filaments need minimal retraction to prevent jams"
      else st
    { st with notes := st.notes ++ ["TPU: Reduce or disable retraction to prevent jams"] }
  else st

/-- `MaterialOptimizer._optimize_retraction`. -/
def optimizeRetraction (mat : FilamentProfile) (st : OptSt) : OptSt :=
  retrFlexStage mat (st.p.retraction_length.getD (4/5)) (retrSpeedStage mat (retrLenStage mat st))

/-- `MaterialOptimizer._optimize_cooling`. -/
def optimizeCooling (mat : FilamentProfile) (st : OptSt) : OptSt :=
  let oldFan := st.p.fan_speed.getD 100
  match mat.filament_type with
  | .PLA =>
    if oldFan < 80 then
      recChange { st with p := { st.p with fan_speed := some 100 } }
        "fan_speed" (some (.num oldFan)) (some (.num 100))
        "PLA benefits from high cooling"
    else st
  | .PETG =>
    if oldFan > 60 then
      recChange { st with p := { st.p with fan_speed := some 50 } }
        "fan_speed" (some (.num oldFan)) (some (.num 50))
        "PETG needs moderate cooling to prevent brittleness"
    else st
  | .PC =>
    if oldFan > 30 then
      let st :=
        recChange { st with p := { st.p with fan_speed := some 20, fan_min_layer_time := some 15 } }
          "fan_speed" (some (.num oldFan)) (some (.num 20))
          "PC needs minimal cooling to prevent cracking"
      { st with notes := st.notes ++ ["PC: Keep fan low to prevent layer separation"] }
    else st
  | .TPU | .TPE =>
    let nv := min oldFan 50
    let st' := { st with p := { st.p with fan_speed := some nv } }
    if oldFan ≠ nv then
      recChange st' "fan_speed" (some (.num oldFan)) (some (.num nv))
        "TPU works best with moderate cooling"
    else st'
  | _ => st

/-- Brim block of `_optimize_adhesion` (PC/ABS are warp-prone). -/
def adhBrimStage (mat : FilamentProfile) (st : OptSt) : OptSt :=
  let warpProne := mat.filament_type = .PC ∨ mat.filament_type = .ABS
  let oldBrim := st.p.brim_width.getD 5
  if warpProne ∧ oldBrim < 8 then
    let st :=
      recChange { st with p := { st.p with brim_width := some 10 } }
        "brim_width" (some (.num oldBrim)) (some (.num 10))
        "prone to warping - larger brim helps"
    { st with warnings := st.warnings ++ ["tends to warp: use brim, level bed, consider enclosure"] }
  else st

/-- First-layer-speed block of `_optimize_adhesion`. -/
def adhFirstSpeedStage (st : OptSt) : OptSt :=
  let oldFirst := st.p.initial_layer_speed.getD 30
  if oldFirst > 25 then
    recChange { st with p := { st.p with initial_layer_speed := some 20 } }
      "initial_layer_speed" (some (.num oldFirst)) (some (.num 20))
      "Slower first layer improves adhesion"
  else st

/-- First-layer-height block of `_optimize_adhesion` (target `1.2 × layer height`,
rounded to 2 decimals, retargeted when off by > 0.02). -/
def adhFirstHeightStage (st : OptSt) : OptSt :=
  let oldH := st.p.initial_layer_height.getD (1/5)
  let lh := st.p.layer_height.getD (1/5)
  let optF := lh * (6/5)
  if |oldH - optF| > 1/50 then
    recChange { st with p := { st.p with initial_layer_height := some (round2 optF) } }
      "initial_layer_height" (some (.num oldH)) (some (.num (round2 optF)))
      "Slightly thicker first layer improves bed adhesion"
  else st

/-- `MaterialOptimizer._optimize_adhesion`. -/
def optimizeAdhesion (mat : FilamentProfile) (st : OptSt) : OptSt :=
  adhFirstHeightStage (adhFirstSpeedStage (adhBrimStage mat st))

/-- `MaterialOptimizer._optimize_structure`. -/
def optimizeStructure (mat : FilamentProfile) (st : OptSt) : OptSt :=
  if mat.is_flexible then
    let st :=
      if st.p.wall_loops.getD 3 < 3 then
        recChange { st with p := { st.p with wall_loops := some 3 } }
          "wall_loops" (some (.num (st.p.wall_loops.getD 3))) (some (.num 3))
          "Flexible materials benefit from more walls"
      else st
    if st.p.sparse_infill_density.getD 20 > 25 then
      { st with notes := st.notes ++ ["Lower infill makes TPU more flexible"] }
    else st
  else st

/-- AMS-compatibility warning of `_apply_material_specifics`. -/
def specAmsStage (mat : FilamentProfile) (st : OptSt) : OptSt :=
  if mat.ams_compatible then st
  else { st with warnings := st.warnings ++ ["NOT compatible with AMS; feed filament directly"] }

/-- PC block of `_apply_material_specifics`: the draft shield is enabled and a
change from `False` to `True` is recorded unconditionally. -/
def specPcStage (mat : FilamentProfile) (st : OptSt) : OptSt :=
  if mat.filament_type = .PC then
    let st := { st with warnings :=
      st.warnings ++ ["Polycarbonate prints best enclosed; A1 is open frame"] }
    recChange { st with p := { st.p with enable_draft_shield := some true } }
      "enable_draft_shield" (some (.bool false)) (some (.bool true))
      "Draft shield helps PC on open frame printers"
  else st

/-- Cold-room block of `_apply_material_specifics`: below 18 °C the bed
temperature (when present) is bumped by 5 without a change-log entry. -/
def specColdStage (mat : FilamentProfile) (ambient : ℚ) (st : OptSt) : OptSt :=
  if ambient < 18 then
    let st := { st with notes := st.notes ++ ["Room is cold; consider +5C bed temp"] }
    match st.p.bed_temp with
    | some b => { st with p := { st.p with bed_temp := some (min (b + 5) mat.bed_temp.max_temp) } }
    | none => st
  else st

/-- PETG block of `_apply_material_specifics`: z-hop enabled when not already. -/
def specPetgStage (mat : FilamentProfile) (st : OptSt) : OptSt :=
  if mat.filament_type = .PETG then
    let st := { st with notes := st.notes ++ ["PETG tends to string; tune retraction"] }
    if st.p.z_hop_enabled.getD false then st
    else
      recChange { st with p := { st.p with z_hop_enabled := some true, z_hop_height := some (2/5) } }
        "z_hop_enabled" (some (.bool false)) (some (.bool true))
        "Z-hop helps PETG avoid nozzle hitting printed parts"
  else st

/-- `MaterialOptimizer._apply_material_specifics`. -/
def applyMaterialSpecifics (mat : FilamentProfile) (ambient : ℚ) (st : OptSt) : OptSt :=
  specPetgStage mat (specColdStage mat ambient (specPcStage mat (specAmsStage mat st)))

/-- Result of `MaterialOptimizer.optimize_for_material`. -/
structure OptimizationResult where
  original_params : OptimParams
  optimized_params : OptimParams
  changes_made : List Change
  warnings : List String
  notes : List String
  deriving DecidableEq, Repr

/-- The fixed rule order of `optimize_for_material` once a profile is found. -/
def runPipeline (mat : FilamentProfile) (nd ambient : ℚ) (st : OptSt) : OptSt :=
  applyMaterialSpecifics mat ambient
    (optimizeStructure mat
      (optimizeAdhesion mat
        (optimizeCooling mat
          (optimizeRetraction mat
            (optimizeSpeeds mat nd
              (optimizeTemperatures mat st))))))

/-- `MaterialOptimizer.optimize_for_material` (the change/warning/note lists are
reset at the start of every call in the source; the fetched nozzle profile is
never used). -/
def optimizeForMaterial (params : OptimParams) (material : String)
    (nozzle_diameter : ℚ := 2/5) (ambient_temp : ℚ := 22) : OptimizationResult :=
  match getFilamentProfile material with
  | none =>
    { original_params := params
      optimized_params := params
      changes_made := []
      warnings := ["Unknown material, using defaults"]
      notes := [] }
  | some mat =>
    let st := runPipeline mat nozzle_diameter ambient_temp ⟨params, [], [], []⟩
    { original_params := params
      optimized_params := st.p
      changes_made := st.changes
      warnings := st.warnings
      notes := st.notes }

end VibePrint

namespace VibePrint

/-! ### Frame lemmas: which parameter keys each optimizer stage can write -/

@[simp] theorem recChange_p (st : OptSt) (param : String) (o n : Option PyVal) (r : String) :
    (recChange st param o n r).p = st.p := by
  unfold recChange; split <;> rfl

@[simp] theorem recChange_warnings (st : OptSt) (param : String) (o n : Option PyVal) (r : String) :
    (recChange st param o n r).warnings = st.warnings := by
  unfold recChange; split <;> rfl

@[simp] theorem recChange_notes (st : OptSt) (param : String) (o n : Option PyVal) (r : String) :
    (recChange st param o n r).notes = st.notes := by
  unfold recChange; split <;> rfl

theorem recChange_changes_of_eq (st : OptSt) (param : String) {o n : Option PyVal} (r : String)
    (h : o = n) : (recChange st param o n r).changes = st.changes := by
  unfold recChange
  simp [h]

theorem tempNozzleStage_p_shape (mat : FilamentProfile) (st : OptSt) :
    ∃ a, (tempNozzleStage mat st).p = { st.p with nozzle_temp := a } := by
  unfold tempNozzleStage
  dsimp only
  repeat' split
  all_goals try simp only [recChange_p]
  all_goals exact ⟨_, rfl⟩

theorem tempBedStage_p_shape (mat : FilamentProfile) (st : OptSt) :
    ∃ a, (tempBedStage mat st).p = { st.p with bed_temp := a } := by
  unfold tempBedStage
  dsimp only
  repeat' split
  all_goals try simp only [recChange_p]
  all_goals exact ⟨_, rfl⟩

theorem speedOuterStage_p_shape (mat : FilamentProfile) (st : OptSt) :
    ∃ a, (speedOuterStage mat st).p = { st.p with outer_wall_speed := a } := by
  unfold speedOuterStage
  dsimp only
  repeat' split
  all_goals try simp only [recChange_p]
  all_goals exact ⟨_, rfl⟩

theorem speedInnerStage_p_shape (mat : FilamentProfile) (st : OptSt) :
    ∃ a, (speedInnerStage mat st).p = { st.p with inner_wall_speed := a } := by
  unfold speedInnerStage
  dsimp only
  repeat' split
  all_goals try simp only [recChange_p]
  all_goals exact ⟨_, rfl⟩

theorem speedInfillStage_p_shape (mat : FilamentProfile) (st : OptSt) :
    ∃ a, (speedInfillStage mat st).p = { st.p with infill_speed := a } := by
  unfold speedInfillStage
  dsimp only
  repeat' split
  all_goals try simp only [recChange_p]
  all_goals exact ⟨_, rfl⟩

theorem speedVolumetricStage_p_shape (mat : FilamentProfile) (nd : ℚ) (st : OptSt) :
    ∃ a, (speedVolumetricStage mat nd st).p = { st.p with outer_wall_speed := a } := by
  unfold speedVolumetricStage
  dsimp only
  repeat' split
  all_goals try simp only [recChange_p]
  all_goals exact ⟨_, rfl⟩

theorem retrLenStage_p_shape (mat : FilamentProfile) (st : OptSt) :
    ∃ a, (retrLenStage mat st).p = { st.p with retraction_length := a } := by
  unfold retrLenStage
  dsimp only
  repeat' split
  all_goals try simp only [recChange_p]
  all_goals exact ⟨_, rfl⟩

theorem retrSpeedStage_p_shape (mat : FilamentProfile) (st : OptSt) :
    ∃ a, (retrSpeedStage mat st).p = { st.p with retraction_speed := a } := by
  unfold retrSpeedStage
  dsimp only
  repeat' split
  all_goals try simp only [recChange_p]
  all_goals exact ⟨_, rfl⟩

theorem retrFlexStage_p_shape (mat : FilamentProfile) (oldL : ℚ) (st : OptSt) :
    ∃ a, (retrFlexStage mat oldL st).p = { st.p with retraction_length := a } := by
  unfold retrFlexStage
  dsimp only
  repeat' split
  all_goals try simp only [recChange_p]
  all_goals exact ⟨_, rfl⟩

theorem optimizeCooling_p_shape (mat : FilamentProfile) (st : OptSt) :
    ∃ a b, (optimizeCooling mat st).p =
      { st.p with fan_speed := a, fan_min_layer_time := b } := by
  unfold optimizeCooling
  dsimp only
  repeat' split
  all_goals try simp only [recChange_p]
  all_goals exact ⟨_, _, rfl⟩

theorem adhBrimStage_p_shape (mat : FilamentProfile) (st : OptSt) :
    ∃ a, (adhBrimStage mat st).p = { st.p with brim_width := a } := by
  unfold adhBrimStage
  dsimp only
  repeat' split
  all_goals try simp only [recChange_p]
  all_goals exact ⟨_, rfl⟩

theorem adhFirstSpeedStage_p_shape (st : OptSt) :
    ∃ a, (adhFirstSpeedStage st).p = { st.p with initial_layer_speed := a } := by
  unfold adhFirstSpeedStage
  dsimp only
  repeat' split
  all_goals try simp only [recChange_p]
  all_goals exact ⟨_, rfl⟩

theorem adhFirstHeightStage_p_shape (st : OptSt) :
    ∃ a, (adhFirstHeightStage st).p = { st.p with initial_layer_height := a } := by
  unfold adhFirstHeightStage
  dsimp only
  repeat' split
  all_goals try simp only [recChange_p]
  all_goals exact ⟨_, rfl⟩

theorem optimizeStructure_p_shape (mat : FilamentProfile) (st : OptSt) :
    ∃ a, (optimizeStructure mat st).p = { st.p with wall_loops := a } := by
  unfold optimizeStructure
  dsimp only
  repeat' split
  all_goals try simp only [recChange_p]
  all_goals exact ⟨_, rfl⟩

@[simp] theorem specAmsStage_p (mat : FilamentProfile) (st : OptSt) :
    (specAmsStage mat st).p = st.p := by
  unfold specAmsStage; split <;> rfl

theorem specPcStage_p_shape (mat : FilamentProfile) (st : OptSt) :
    ∃ a, (specPcStage mat st).p = { st.p with enable_draft_shield := a } := by
  unfold specPcStage
  dsimp only
  repeat' split
  all_goals try simp only [recChange_p]
  all_goals exact ⟨_, rfl⟩

theorem specColdStage_p_warm (mat : FilamentProfile) {ambient : ℚ}
    (hamb : ¬ ambient < 18) (st : OptSt) :
    (specColdStage mat ambient st).p = st.p := by
  unfold specColdStage
  simp [hamb]

theorem specPetgStage_p_shape (mat : FilamentProfile) (st : OptSt) :
    ∃ a b, (specPetgStage mat st).p =
      { st.p with z_hop_enabled := a, z_hop_height := b } := by
  unfold specPetgStage
  dsimp only
  repeat' split
  all_goals try simp only [recChange_p]
  all_goals exact ⟨_, _, rfl⟩

end VibePrint

namespace VibePrint

/-! ### Stability: what a pass of each rule guarantees, and that a stable
parameter set is a fixed point of that rule -/

/-- Post-condition of the temperature rule. -/
def StTemps (mat : FilamentProfile) (p : OptimParams) : Prop :=
  (∃ t, p.nozzle_temp = some t ∧
    mat.nozzle_temp.min_temp ≤ t ∧ t ≤ mat.nozzle_temp.max_temp) ∧
  (∃ b, p.bed_temp = some b ∧ mat.bed_temp.min_temp ≤ b)

/-- Post-condition of the speed rule (for an initially present outer speed). -/
def StSpeeds (mat : FilamentProfile) (nd : ℚ) (p : OptimParams) : Prop :=
  (∃ v, p.outer_wall_speed = some v ∧ v ≤ mat.max_print_speed * (1/2) ∧
    p.layer_height.getD (1/5) * p.line_width.getD (nd * (11/10)) * v ≤
      mat.max_volumetric_flow) ∧
  (∀ v, p.inner_wall_speed = some v → v ≤ mat.max_print_speed * (7/10)) ∧
  (∀ v, p.infill_speed = some v → v ≤ mat.max_print_speed)

/-- Post-condition of the retraction rule. -/
def StRetr (mat : FilamentProfile) (p : OptimParams) : Prop :=
  |p.retraction_length.getD (4/5) - mat.retraction_length| ≤ 1/5 ∧
  |p.retraction_speed.getD 30 - mat.retraction_speed| ≤ 5 ∧
  (mat.is_flexible = true → ¬ p.retraction_length.getD 0 > 1)

/-- Post-condition of the cooling rule. -/
def StCool (mat : FilamentProfile) (p : OptimParams) : Prop :=
  match mat.filament_type with
  | .PLA => ¬ p.fan_speed.getD 100 < 80
  | .PETG => ¬ p.fan_speed.getD 100 > 60
  | .PC => ¬ p.fan_speed.getD 100 > 30
  | .TPU | .TPE => ∃ v, p.fan_speed = some v ∧ min v 50 = v
  | _ => True

/-- Post-condition of the adhesion rule. -/
def StAdh (mat : FilamentProfile) (p : OptimParams) : Prop :=
  ¬((mat.filament_type = .PC ∨ mat.filament_type = .ABS) ∧ p.brim_width.getD 5 < 8) ∧
  ¬ p.initial_layer_speed.getD 30 > 25 ∧
  ¬ |p.initial_layer_height.getD (1/5) - p.layer_height.getD (1/5) * (6/5)| > 1/50

/-- Post-condition of the structure rule. -/
def StStruct (mat : FilamentProfile) (p : OptimParams) : Prop :=
  mat.is_flexible = true → ¬ p.wall_loops.getD 3 < 3

/-- Post-condition of the material-specific rule (PETG z-hop). -/
def StSpec (mat : FilamentProfile) (p : OptimParams) : Prop :=
  mat.filament_type = .PETG → p.z_hop_enabled.getD false = true

/-- All post-conditions together. -/
def StableAll (mat : FilamentProfile) (nd : ℚ) (p : OptimParams) : Prop :=
  StTemps mat p ∧ StSpeeds mat nd p ∧ StRetr mat p ∧ StCool mat p ∧
    StAdh mat p ∧ StStruct mat p ∧ StSpec mat p

/-- Facts about a profile that the registry satisfies and the stability
argument needs. -/
def GoodProfile (mat : FilamentProfile) : Prop :=
  mat.nozzle_temp.min_temp ≤ mat.nozzle_temp.optimal ∧
  mat.nozzle_temp.optimal ≤ mat.nozzle_temp.max_temp ∧
  mat.bed_temp.min_temp ≤ mat.bed_temp.optimal ∧
  0 < mat.max_print_speed ∧
  0 < mat.max_volumetric_flow ∧
  (mat.is_flexible = true → mat.retraction_length ≤ 4/5)

/-! Composite write-frame lemmas for the six rules. -/

theorem optimizeTemperatures_p_shape (mat : FilamentProfile) (st : OptSt) :
    ∃ a b, (optimizeTemperatures mat st).p =
      { st.p with nozzle_temp := a, bed_temp := b } := by
  unfold optimizeTemperatures
  obtain ⟨a, ha⟩ := tempNozzleStage_p_shape mat st
  obtain ⟨b, hb⟩ := tempBedStage_p_shape mat (tempNozzleStage mat st)
  exact ⟨a, b, by rw [hb, ha]⟩

theorem optimizeSpeeds_p_shape (mat : FilamentProfile) (nd : ℚ) (st : OptSt) :
    ∃ a b c, (optimizeSpeeds mat nd st).p =
      { st.p with outer_wall_speed := a, inner_wall_speed := b, infill_speed := c } := by
  unfold optimizeSpeeds
  obtain ⟨a, ha⟩ := speedOuterStage_p_shape mat st
  obtain ⟨b, hb⟩ := speedInnerStage_p_shape mat (speedOuterStage mat st)
  obtain ⟨c, hc⟩ := speedInfillStage_p_shape mat (speedInnerStage mat (speedOuterStage mat st))
  obtain ⟨d, hd⟩ := speedVolumetricStage_p_shape mat nd
    (speedInfillStage mat (speedInnerStage mat (speedOuterStage mat st)))
  exact ⟨d, b, c, by rw [hd, hc, hb, ha]⟩

theorem optimizeRetraction_p_shape (mat : FilamentProfile) (st : OptSt) :
    ∃ a b, (optimizeRetraction mat st).p =
      { st.p with retraction_length := a, retraction_speed := b } := by
  unfold optimizeRetraction
  obtain ⟨a, ha⟩ := retrLenStage_p_shape mat st
  obtain ⟨b, hb⟩ := retrSpeedStage_p_shape mat (retrLenStage mat st)
  obtain ⟨c, hc⟩ := retrFlexStage_p_shape mat (st.p.retraction_length.getD (4/5))
    (retrSpeedStage mat (retrLenStage mat st))
  exact ⟨c, b, by rw [hc, hb, ha]⟩

theorem optimizeAdhesion_p_shape (mat : FilamentProfile) (st : OptSt) :
    ∃ a b c, (optimizeAdhesion mat st).p =
      { st.p with brim_width := a, initial_layer_speed := b, initial_layer_height := c } := by
  unfold optimizeAdhesion
  obtain ⟨a, ha⟩ := adhBrimStage_p_shape mat st
  obtain ⟨b, hb⟩ := adhFirstSpeedStage_p_shape (adhBrimStage mat st)
  obtain ⟨c, hc⟩ := adhFirstHeightStage_p_shape (adhFirstSpeedStage (adhBrimStage mat st))
  exact ⟨a, b, c, by rw [hc, hb, ha]⟩

theorem applyMaterialSpecifics_p_shape_warm (mat : FilamentProfile) {ambient : ℚ}
    (hamb : ¬ ambient < 18) (st : OptSt) :
    ∃ a b c, (applyMaterialSpecifics mat ambient st).p =
      { st.p with enable_draft_shield := a, z_hop_enabled := b, z_hop_height := c } := by
  unfold applyMaterialSpecifics
  obtain ⟨a, ha⟩ := specPcStage_p_shape mat (specAmsStage mat st)
  obtain ⟨b, c, hbc⟩ := specPetgStage_p_shape mat
    (specColdStage mat ambient (specPcStage mat (specAmsStage mat st)))
  refine ⟨a, b, c, ?_⟩
  rw [hbc, specColdStage_p_warm mat hamb, ha, specAmsStage_p]

end VibePrint

namespace VibePrint

/-! Fixed-point lemmas: on a stable parameter set each rule is the identity
(or at most appends warnings/notes). -/

theorem optimizeTemperatures_fix (mat : FilamentProfile) (st : OptSt)
    (h : StTemps mat st.p) : optimizeTemperatures mat st = st := by
  obtain ⟨⟨t, ht, ht1, ht2⟩, ⟨b, hb, hb1⟩⟩ := h
  unfold optimizeTemperatures tempNozzleStage tempBedStage
  rw [ht]
  dsimp only
  rw [if_neg (by linarith), if_neg (by linarith), hb]
  dsimp only
  rw [if_neg (by linarith)]

theorem optimizeSpeeds_fix (mat : FilamentProfile) (nd : ℚ) (st : OptSt)
    (h : StSpeeds mat nd st.p) : optimizeSpeeds mat nd st = st := by
  obtain ⟨⟨v, hv, hv1, hv2⟩, hinner, hinfill⟩ := h
  have houter : speedOuterStage mat st = st := by
    unfold speedOuterStage
    rw [hv]
    dsimp only
    rw [if_neg (by rw [min_eq_left hv1]; exact lt_irrefl v)]
  have hinner' : speedInnerStage mat st = st := by
    unfold speedInnerStage
    rcases hi : st.p.inner_wall_speed with _ | w
    · rfl
    · dsimp only
      rw [if_neg (by rw [min_eq_left (hinner w hi)]; exact lt_irrefl w)]
  have hinfill' : speedInfillStage mat st = st := by
    unfold speedInfillStage
    rcases hi : st.p.infill_speed with _ | w
    · rfl
    · dsimp only
      rw [if_neg (by rw [min_eq_left (hinfill w hi)]; exact lt_irrefl w)]
  have hvol : speedVolumetricStage mat nd st = st := by
    unfold speedVolumetricStage
    dsimp only
    rw [if_neg]
    rw [hv]
    simpa using hv2
  unfold optimizeSpeeds
  rw [houter, hinner', hinfill', hvol]

theorem optimizeRetraction_fix (mat : FilamentProfile) (st : OptSt)
    (h : StRetr mat st.p) :
    (optimizeRetraction mat st).p = st.p ∧
      (optimizeRetraction mat st).changes = st.changes := by
  obtain ⟨h1, h2, h3⟩ := h
  have hlen : retrLenStage mat st = st := by
    unfold retrLenStage
    dsimp only
    rw [if_neg (by push_neg; exact h1)]
  have hspd : retrSpeedStage mat st = st := by
    unfold retrSpeedStage
    dsimp only
    rw [if_neg (by push_neg; exact h2)]
  unfold optimizeRetraction
  rw [hlen, hspd]
  unfold retrFlexStage
  by_cases hf : mat.is_flexible
  · rw [if_pos hf]
    dsimp only
    rw [if_neg (h3 hf)]
    exact ⟨rfl, rfl⟩
  · rw [if_neg hf]
    exact ⟨rfl, rfl⟩

theorem optimizeCooling_fix (mat : FilamentProfile) (st : OptSt)
    (h : StCool mat st.p) : optimizeCooling mat st = st := by
  unfold optimizeCooling
  unfold StCool at h
  rcases hmt : mat.filament_type with _ | _ | _ | _ | _ | _ | _ | _ | _ | _ <;>
    rw [hmt] at h <;> dsimp only
  case PLA => rw [if_neg h]
  case PETG => rw [if_neg h]
  case PC => rw [if_neg h]
  case TPU =>
    obtain ⟨v, hv, hmin⟩ := h
    rw [hv]
    simp only [Option.getD_some]
    rw [hmin, if_neg (by simp), ← hv]
  case TPE =>
    obtain ⟨v, hv, hmin⟩ := h
    rw [hv]
    simp only [Option.getD_some]
    rw [hmin, if_neg (by simp), ← hv]

theorem optimizeAdhesion_fix (mat : FilamentProfile) (st : OptSt)
    (h : StAdh mat st.p) : optimizeAdhesion mat st = st := by
  obtain ⟨h1, h2, h3⟩ := h
  have hb : adhBrimStage mat st = st := by
    unfold adhBrimStage
    dsimp only
    rw [if_neg h1]
  have hs : adhFirstSpeedStage st = st := by
    unfold adhFirstSpeedStage
    dsimp only
    rw [if_neg h2]
  have hh : adhFirstHeightStage st = st := by
    unfold adhFirstHeightStage
    dsimp only
    rw [if_neg h3]
  unfold optimizeAdhesion
  rw [hb, hs, hh]

theorem optimizeStructure_fix (mat : FilamentProfile) (st : OptSt)
    (h : StStruct mat st.p) :
    (optimizeStructure mat st).p = st.p ∧
      (optimizeStructure mat st).changes = st.changes := by
  unfold optimizeStructure
  by_cases hf : mat.is_flexible
  · rw [if_pos hf]
    rw [if_neg (h hf)]
    dsimp only
    split <;> exact ⟨rfl, rfl⟩
  · rw [if_neg hf]
    exact ⟨rfl, rfl⟩

theorem applyMaterialSpecifics_fix (mat : FilamentProfile) {ambient : ℚ} (st : OptSt)
    (hpc : mat.filament_type ≠ .PC) (hamb : ¬ ambient < 18)
    (h : StSpec mat st.p) :
    (applyMaterialSpecifics mat ambient st).p = st.p ∧
      (applyMaterialSpecifics mat ambient st).changes = st.changes := by
  have hams : (specAmsStage mat st).p = st.p ∧ (specAmsStage mat st).changes = st.changes := by
    unfold specAmsStage
    split <;> exact ⟨rfl, rfl⟩
  have hpc' : specPcStage mat (specAmsStage mat st) = specAmsStage mat st := by
    unfold specPcStage
    rw [if_neg hpc]
  have hcold : specColdStage mat ambient (specAmsStage mat st) = specAmsStage mat st := by
    unfold specColdStage
    rw [if_neg hamb]
  unfold applyMaterialSpecifics
  rw [hpc', hcold]
  unfold specPetgStage
  by_cases hpetg : mat.filament_type = .PETG
  · rw [if_pos hpetg]
    dsimp only
    rw [if_pos (by rw [hams.1]; exact h hpetg)]
    exact ⟨hams.1, hams.2⟩
  · rw [if_neg hpetg]
    exact hams

end VibePrint

namespace VibePrint

theorem pytrunc_le_of_le {x y : ℚ} (hy : 0 ≤ y) (hxy : x ≤ y) : (pytrunc x : ℚ) ≤ y := by
  by_cases hx : 0 ≤ x
  · exact le_trans (pytrunc_le hx) hxy
  · push_neg at hx
    exact le_trans (pytrunc_nonpos (le_of_lt hx)) hy

/-! Establishment lemmas: one pass of each rule reaches its post-condition. -/

theorem tempNozzleStage_post (mat : FilamentProfile) (st : OptSt)
    (h1 : mat.nozzle_temp.min_temp ≤ mat.nozzle_temp.optimal)
    (h2 : mat.nozzle_temp.optimal ≤ mat.nozzle_temp.max_temp) :
    ∃ t, (tempNozzleStage mat st).p.nozzle_temp = some t ∧
      mat.nozzle_temp.min_temp ≤ t ∧ t ≤ mat.nozzle_temp.max_temp := by
  unfold tempNozzleStage
  rcases h : st.p.nozzle_temp with _ | t
  · exact ⟨mat.nozzle_temp.optimal, by simp, h1, h2⟩
  · dsimp only
    split_ifs with hc1 hc2
    · exact ⟨mat.nozzle_temp.optimal, by simp, h1, h2⟩
    · exact ⟨mat.nozzle_temp.optimal, by simp, h1, h2⟩
    · push_neg at hc1 hc2
      exact ⟨t, by simp [h], hc1, hc2⟩

theorem tempBedStage_post (mat : FilamentProfile) (st : OptSt)
    (h1 : mat.bed_temp.min_temp ≤ mat.bed_temp.optimal) :
    ∃ b, (tempBedStage mat st).p.bed_temp = some b ∧ mat.bed_temp.min_temp ≤ b := by
  unfold tempBedStage
  rcases h : st.p.bed_temp with _ | b
  · exact ⟨mat.bed_temp.optimal, by simp, h1⟩
  · dsimp only
    split_ifs with hc
    · exact ⟨mat.bed_temp.optimal, by simp, h1⟩
    · push_neg at hc
      exact ⟨b, by simp [h], hc⟩

theorem optimizeTemperatures_estab (mat : FilamentProfile) (st : OptSt)
    (hg : GoodProfile mat) : StTemps mat (optimizeTemperatures mat st).p := by
  obtain ⟨hn1, hn2, hb1, -, -, -⟩ := hg
  unfold optimizeTemperatures
  constructor
  · obtain ⟨t, ht, htb⟩ := tempNozzleStage_post mat st hn1 hn2
    obtain ⟨a, ha⟩ := tempBedStage_p_shape mat (tempNozzleStage mat st)
    exact ⟨t, by rw [ha]; simpa using ht, htb⟩
  · exact tempBedStage_post mat (tempNozzleStage mat st) hb1

theorem optimizeCooling_estab (mat : FilamentProfile) (st : OptSt) :
    StCool mat (optimizeCooling mat st).p := by
  unfold optimizeCooling StCool
  rcases hmt : mat.filament_type with _ | _ | _ | _ | _ | _ | _ | _ | _ | _ <;> dsimp only
  case PLA =>
    split_ifs with h
    · simp; norm_num
    · exact h
  case PETG =>
    split_ifs with h
    · simp; norm_num
    · exact h
  case PC =>
    split_ifs with h
    · simp; norm_num
    · exact h
  case TPU =>
    split_ifs with h <;> exact ⟨min (st.p.fan_speed.getD 100) 50, by simp, by
      rw [min_assoc, min_self]⟩
  case TPE =>
    split_ifs with h <;> exact ⟨min (st.p.fan_speed.getD 100) 50, by simp, by
      rw [min_assoc, min_self]⟩

theorem optimizeStructure_estab (mat : FilamentProfile) (st : OptSt) :
    StStruct mat (optimizeStructure mat st).p := by
  unfold optimizeStructure StStruct
  intro hf
  rw [if_pos hf]
  dsimp only
  split_ifs with h1 h2 h2 <;> simp_all

theorem applyMaterialSpecifics_estab (mat : FilamentProfile) (ambient : ℚ) (st : OptSt) :
    StSpec mat (applyMaterialSpecifics mat ambient st).p := by
  unfold applyMaterialSpecifics specPetgStage StSpec
  intro hpetg
  rw [if_pos hpetg]
  dsimp only
  split_ifs with h
  · exact h
  · simp

end VibePrint

namespace VibePrint

theorem retrLenStage_post (mat : FilamentProfile) (st : OptSt) :
    |(retrLenStage mat st).p.retraction_length.getD (4/5) - mat.retraction_length| ≤ 1/5 := by
  unfold retrLenStage
  dsimp only
  split_ifs with h
  · simp
  · push_neg at h
    exact h

theorem retrSpeedStage_post (mat : FilamentProfile) (st : OptSt) :
    |(retrSpeedStage mat st).p.retraction_speed.getD 30 - mat.retraction_speed| ≤ 5 := by
  unfold retrSpeedStage
  dsimp only
  split_ifs with h
  · simp
  · push_neg at h
    exact h

theorem optimizeRetraction_estab (mat : FilamentProfile) (st : OptSt)
    (hflex : mat.is_flexible = true → mat.retraction_length ≤ 4/5) :
    StRetr mat (optimizeRetraction mat st).p := by
  have hlen1 := retrLenStage_post mat st
  obtain ⟨b, hb⟩ := retrSpeedStage_p_shape mat (retrLenStage mat st)
  have hlen2 : |(retrSpeedStage mat (retrLenStage mat st)).p.retraction_length.getD (4/5) -
      mat.retraction_length| ≤ 1/5 := by
    rw [hb]; simpa using hlen1
  have hspd := retrSpeedStage_post mat (retrLenStage mat st)
  have hcond : mat.is_flexible = true →
      ¬ (retrSpeedStage mat (retrLenStage mat st)).p.retraction_length.getD 0 > 1 := by
    intro hf
    have hr := hflex hf
    rcases hp : (retrSpeedStage mat (retrLenStage mat st)).p.retraction_length with _ | v
    · simp [hp]
    · simp only [hp, Option.getD_some] at hlen2 ⊢
      have h := abs_le.mp hlen2
      push_neg
      linarith [h.2]
  have hfix : (retrFlexStage mat (st.p.retraction_length.getD (4/5))
      (retrSpeedStage mat (retrLenStage mat st))).p =
      (retrSpeedStage mat (retrLenStage mat st)).p := by
    unfold retrFlexStage
    by_cases hf : mat.is_flexible
    · rw [if_pos hf]
      dsimp only
      rw [if_neg (hcond hf)]
    · rw [if_neg hf]
  unfold optimizeRetraction
  refine ⟨by rw [hfix]; exact hlen2, by rw [hfix]; exact hspd, fun hf => by rw [hfix]; exact hcond hf⟩

theorem adhBrimStage_post (mat : FilamentProfile) (st : OptSt) :
    ¬((mat.filament_type = .PC ∨ mat.filament_type = .ABS) ∧
      (adhBrimStage mat st).p.brim_width.getD 5 < 8) := by
  unfold adhBrimStage
  dsimp only
  split_ifs with h
  · simp only [recChange_p]
    rintro ⟨-, hlt⟩
    simp only [Option.getD_some] at hlt
    norm_num at hlt
  · rintro ⟨hw, hlt⟩
    exact h ⟨hw, hlt⟩

theorem adhFirstSpeedStage_post (st : OptSt) :
    ¬ (adhFirstSpeedStage st).p.initial_layer_speed.getD 30 > 25 := by
  unfold adhFirstSpeedStage
  dsimp only
  split_ifs with h
  · simp only [recChange_p]
    simp
    norm_num
  · exact h

theorem adhFirstHeightStage_post (st : OptSt) :
    ¬ |(adhFirstHeightStage st).p.initial_layer_height.getD (1/5) -
      (adhFirstHeightStage st).p.layer_height.getD (1/5) * (6/5)| > 1/50 := by
  unfold adhFirstHeightStage
  dsimp only
  split_ifs with h
  · simp only [recChange_p]
    push_neg
    simp only [Option.getD_some]
    have := abs_round2_sub_le (st.p.layer_height.getD (1/5) * (6/5))
    calc |round2 (st.p.layer_height.getD (1/5) * (6/5)) -
        st.p.layer_height.getD (1/5) * (6/5)| ≤ 1/200 := this
      _ ≤ 1/50 := by norm_num
  · exact h

theorem optimizeAdhesion_estab (mat : FilamentProfile) (st : OptSt) :
    StAdh mat (optimizeAdhesion mat st).p := by
  unfold optimizeAdhesion
  have hbrim := adhBrimStage_post mat st
  obtain ⟨b, hb⟩ := adhFirstSpeedStage_p_shape (adhBrimStage mat st)
  obtain ⟨c, hc⟩ := adhFirstHeightStage_p_shape (adhFirstSpeedStage (adhBrimStage mat st))
  refine ⟨?_, ?_, ?_⟩
  · rw [hc, hb]
    intro hcon
    exact hbrim ⟨hcon.1, by simpa using hcon.2⟩
  · rw [hc]
    have := adhFirstSpeedStage_post (adhBrimStage mat st)
    simpa using this
  · exact adhFirstHeightStage_post (adhFirstSpeedStage (adhBrimStage mat st))

end VibePrint

namespace VibePrint

theorem speedOuterStage_post (mat : FilamentProfile) (st : OptSt)
    (hms : 0 < mat.max_print_speed) (houter : st.p.outer_wall_speed.isSome) :
    ∃ v, (speedOuterStage mat st).p.outer_wall_speed = some v ∧
      v ≤ mat.max_print_speed * (1/2) := by
  unfold speedOuterStage
  rcases h : st.p.outer_wall_speed with _ | w
  · rw [h] at houter; simp at houter
  · dsimp only
    split_ifs with hc
    · refine ⟨((pytrunc (min w (mat.max_print_speed * (1/2))) : ℤ) : ℚ), by simp, ?_⟩
      exact pytrunc_le_of_le (by linarith) (min_le_right _ _)
    · push_neg at hc
      exact ⟨w, by simp [h], le_trans hc (min_le_right _ _)⟩

theorem speedInnerStage_post (mat : FilamentProfile) (st : OptSt)
    (hms : 0 < mat.max_print_speed) :
    ∀ v, (speedInnerStage mat st).p.inner_wall_speed = some v →
      v ≤ mat.max_print_speed * (7/10) := by
  unfold speedInnerStage
  rcases h : st.p.inner_wall_speed with _ | w
  · intro v hv
    rw [h] at hv
    simp at hv
  · dsimp only
    split_ifs with hc
    · intro v hv
      simp only [recChange_p] at hv
      obtain rfl : ((pytrunc (min w (mat.max_print_speed * (7/10))) : ℤ) : ℚ) = v := by
        simpa using hv
      exact pytrunc_le_of_le (by linarith) (min_le_right _ _)
    · push_neg at hc
      intro v hv
      rw [h] at hv
      obtain rfl : w = v := by simpa using hv
      exact le_trans hc (min_le_right _ _)

theorem speedInfillStage_post (mat : FilamentProfile) (st : OptSt)
    (hms : 0 < mat.max_print_speed) :
    ∀ v, (speedInfillStage mat st).p.infill_speed = some v →
      v ≤ mat.max_print_speed := by
  unfold speedInfillStage
  rcases h : st.p.infill_speed with _ | w
  · intro v hv
    rw [h] at hv
    simp at hv
  · dsimp only
    split_ifs with hc
    · intro v hv
      simp only [recChange_p] at hv
      obtain rfl : ((pytrunc (min w mat.max_print_speed) : ℤ) : ℚ) = v := by
        simpa using hv
      exact pytrunc_le_of_le (le_of_lt hms) (min_le_right _ _)
    · push_neg at hc
      intro v hv
      rw [h] at hv
      obtain rfl : w = v := by simpa using hv
      exact le_trans hc (min_le_right _ _)

/-- The core volumetric-flow argument: after the check, the (present) outer
speed is both under the half-speed cap and flow-safe. -/
theorem speedVolumetricStage_post (mat : FilamentProfile) (nd : ℚ) (st : OptSt)
    (hmf : 0 < mat.max_volumetric_flow) (hms : 0 < mat.max_print_speed)
    (hin : ∃ v, st.p.outer_wall_speed = some v ∧ v ≤ mat.max_print_speed * (1/2)) :
    ∃ v, (speedVolumetricStage mat nd st).p.outer_wall_speed = some v ∧
      v ≤ mat.max_print_speed * (1/2) ∧
      st.p.layer_height.getD (1/5) * st.p.line_width.getD (nd * (11/10)) * v ≤
        mat.max_volumetric_flow := by
  obtain ⟨w, hw, hw1⟩ := hin
  set a := st.p.layer_height.getD (1/5) * st.p.line_width.getD (nd * (11/10)) with ha
  unfold speedVolumetricStage
  dsimp only
  rw [hw]
  simp only [Option.getD_some]
  rw [← ha]
  split_ifs with hvol
  · -- flow exceeded: the speed is reset to int(0.9 × max_flow / (lh·lw))
    have hane : a ≠ 0 := by
      intro h0
      rw [h0] at hvol
      simp at hvol
      linarith
    have hsafe : a * (mat.max_volumetric_flow / a) = mat.max_volumetric_flow :=
      mul_div_cancel₀ _ hane
    set safe := mat.max_volumetric_flow / a with hsafedef
    set nv : ℚ := ((pytrunc (safe * (9/10)) : ℤ) : ℚ) with hnv
    refine ⟨nv, by simp, ?_, ?_⟩
    · -- nv ≤ max_print_speed/2
      rcases lt_trichotomy a 0 with hlt | heq | hgt
      · have : nv ≤ 0 := by
          rw [hnv]
          apply pytrunc_nonpos
          have hsafeneg : safe ≤ 0 := by
            rw [hsafedef]
            exact le_of_lt (div_neg_of_pos_of_neg hmf hlt)
          nlinarith
        linarith
      · exact absurd heq hane
      · have hsafelt : safe < w := by
          by_contra hcon
          push_neg at hcon
          have : a * w ≤ a * safe := by
            exact mul_le_mul_of_nonneg_left hcon (le_of_lt hgt)
          rw [hsafe] at this
          linarith
        have hsafepos : 0 < safe := by
          rw [hsafedef]
          exact div_pos hmf hgt
        have h1 : nv ≤ safe * (9/10) := by
          rw [hnv]
          apply pytrunc_le
          nlinarith
        nlinarith
    · -- flow-safe: a * nv ≤ max_volumetric_flow
      rcases lt_trichotomy a 0 with hlt | heq | hgt
      · have h1 : safe * (9/10) ≤ nv := by
          rw [hnv]
          apply le_pytrunc
          have hsafeneg : safe ≤ 0 := by
            rw [hsafedef]
            exact le_of_lt (div_neg_of_pos_of_neg hmf hlt)
          nlinarith
        have : a * nv ≤ a * (safe * (9/10)) :=
          mul_le_mul_of_nonpos_left h1 (le_of_lt hlt)
        have h2 : a * (safe * (9/10)) = mat.max_volumetric_flow * (9/10) := by
          rw [← mul_assoc, hsafe]
        nlinarith
      · exact absurd heq hane
      · have hsafepos : 0 < safe := by
          rw [hsafedef]
          exact div_pos hmf hgt
        have h1 : nv ≤ safe * (9/10) := by
          rw [hnv]
          apply pytrunc_le
          nlinarith
        have : a * nv ≤ a * (safe * (9/10)) :=
          mul_le_mul_of_nonneg_left h1 (le_of_lt hgt)
        have h2 : a * (safe * (9/10)) = mat.max_volumetric_flow * (9/10) := by
          rw [← mul_assoc, hsafe]
        nlinarith
  · push_neg at hvol
    exact ⟨w, by simp [hw], hw1, by simpa using hvol⟩

end VibePrint

namespace VibePrint

theorem optimizeSpeeds_estab (mat : FilamentProfile) (nd : ℚ) (st : OptSt)
    (hg : GoodProfile mat) (houter : st.p.outer_wall_speed.isSome) :
    StSpeeds mat nd (optimizeSpeeds mat nd st).p := by
  obtain ⟨-, -, -, hms, hmf, -⟩ := hg
  have h1 := speedOuterStage_post mat st hms houter
  obtain ⟨b2, hb2⟩ := speedInnerStage_p_shape mat (speedOuterStage mat st)
  have h1' : ∃ v, (speedInnerStage mat (speedOuterStage mat st)).p.outer_wall_speed = some v ∧
      v ≤ mat.max_print_speed * (1/2) := by
    rw [hb2]; simpa using h1
  have h2 := speedInnerStage_post mat (speedOuterStage mat st) hms
  obtain ⟨c3, hc3⟩ := speedInfillStage_p_shape mat
    (speedInnerStage mat (speedOuterStage mat st))
  have h1'' : ∃ v, (speedInfillStage mat (speedInnerStage mat
      (speedOuterStage mat st))).p.outer_wall_speed = some v ∧
      v ≤ mat.max_print_speed * (1/2) := by
    rw [hc3]; simpa using h1'
  have h2' : ∀ v, (speedInfillStage mat (speedInnerStage mat
      (speedOuterStage mat st))).p.inner_wall_speed = some v →
      v ≤ mat.max_print_speed * (7/10) := by
    intro v hv
    apply h2 v
    rw [hc3] at hv
    simpa using hv
  have h3 := speedInfillStage_post mat (speedInnerStage mat (speedOuterStage mat st)) hms
  have h4 := speedVolumetricStage_post mat nd
    (speedInfillStage mat (speedInnerStage mat (speedOuterStage mat st))) hmf hms h1''
  obtain ⟨d4, hd4⟩ := speedVolumetricStage_p_shape mat nd
    (speedInfillStage mat (speedInnerStage mat (speedOuterStage mat st)))
  unfold optimizeSpeeds
  refine ⟨?_, ?_, ?_⟩
  · obtain ⟨v, hv, hv1, hv2⟩ := h4
    refine ⟨v, hv, hv1, ?_⟩
    rw [hd4]
    simpa using hv2
  · intro v hv
    apply h2' v
    rw [hd4] at hv
    simpa using hv
  · intro v hv
    apply h3 v
    rw [hd4] at hv
    simpa using hv

/-! Congruence lemmas: each post-condition depends only on a few keys. -/

theorem StTemps_mono {mat : FilamentProfile} {p q : OptimParams}
    (hn : q.nozzle_temp = p.nozzle_temp) (hb : q.bed_temp = p.bed_temp)
    (h : StTemps mat p) : StTemps mat q := by
  unfold StTemps at h ⊢
  rw [hn, hb]
  exact h

theorem StSpeeds_mono {mat : FilamentProfile} {nd : ℚ} {p q : OptimParams}
    (ho : q.outer_wall_speed = p.outer_wall_speed)
    (hi : q.inner_wall_speed = p.inner_wall_speed)
    (hf : q.infill_speed = p.infill_speed)
    (hlh : q.layer_height = p.layer_height)
    (hlw : q.line_width = p.line_width)
    (h : StSpeeds mat nd p) : StSpeeds mat nd q := by
  unfold StSpeeds at h ⊢
  rw [ho, hi, hf, hlh, hlw]
  exact h

theorem StRetr_mono {mat : FilamentProfile} {p q : OptimParams}
    (hl : q.retraction_length = p.retraction_length)
    (hs : q.retraction_speed = p.retraction_speed)
    (h : StRetr mat p) : StRetr mat q := by
  unfold StRetr at h ⊢
  rw [hl, hs]
  exact h

theorem StCool_mono {mat : FilamentProfile} {p q : OptimParams}
    (hf : q.fan_speed = p.fan_speed) (h : StCool mat p) : StCool mat q := by
  unfold StCool at h ⊢
  rw [hf]
  exact h

theorem StAdh_mono {mat : FilamentProfile} {p q : OptimParams}
    (hb : q.brim_width = p.brim_width)
    (hils : q.initial_layer_speed = p.initial_layer_speed)
    (hilh : q.initial_layer_height = p.initial_layer_height)
    (hlh : q.layer_height = p.layer_height)
    (h : StAdh mat p) : StAdh mat q := by
  unfold StAdh at h ⊢
  rw [hb, hils, hilh, hlh]
  exact h

theorem StStruct_mono {mat : FilamentProfile} {p q : OptimParams}
    (hw : q.wall_loops = p.wall_loops) (h : StStruct mat p) : StStruct mat q := by
  unfold StStruct at h ⊢
  rw [hw]
  exact h

theorem StSpec_mono {mat : FilamentProfile} {p q : OptimParams}
    (hz : q.z_hop_enabled = p.z_hop_enabled) (h : StSpec mat p) : StSpec mat q := by
  unfold StSpec at h ⊢
  rw [hz]
  exact h

end VibePrint

namespace VibePrint

/-- One warm-ambient pass on a parameter set with a present outer-wall speed
reaches all the rules' post-conditions. -/
theorem runPipeline_estab (mat : FilamentProfile) (nd ambient : ℚ) (st : OptSt)
    (hg : GoodProfile mat) (hamb : ¬ ambient < 18)
    (houter : st.p.outer_wall_speed.isSome) :
    StableAll mat nd (runPipeline mat nd ambient st).p := by
  have hflex : mat.is_flexible = true → mat.retraction_length ≤ 4/5 := hg.2.2.2.2.2
  -- stage 1: temperatures
  set s1 := optimizeTemperatures mat st with hs1
  have hT1 : StTemps mat s1.p := optimizeTemperatures_estab mat st hg
  have houter1 : s1.p.outer_wall_speed.isSome := by
    obtain ⟨a, b, h⟩ := optimizeTemperatures_p_shape mat st
    rw [hs1, h]
    simpa using houter
  -- stage 2: speeds
  set s2 := optimizeSpeeds mat nd s1 with hs2
  have hS2 : StSpeeds mat nd s2.p := optimizeSpeeds_estab mat nd s1 hg houter1
  obtain ⟨a2, b2, c2, hsh2⟩ := optimizeSpeeds_p_shape mat nd s1
  have hT2 : StTemps mat s2.p := by
    rw [hs2]
    exact StTemps_mono (by rw [hsh2]) (by rw [hsh2]) hT1
  -- stage 3: retraction
  set s3 := optimizeRetraction mat s2 with hs3
  have hR3 : StRetr mat s3.p := optimizeRetraction_estab mat s2 hflex
  obtain ⟨a3, b3, hsh3⟩ := optimizeRetraction_p_shape mat s2
  have hT3 : StTemps mat s3.p := by
    rw [hs3]
    exact StTemps_mono (by rw [hsh3]) (by rw [hsh3]) hT2
  have hS3 : StSpeeds mat nd s3.p := by
    rw [hs3]
    exact StSpeeds_mono (by rw [hsh3]) (by rw [hsh3]) (by rw [hsh3]) (by rw [hsh3])
      (by rw [hsh3]) hS2
  -- stage 4: cooling
  set s4 := optimizeCooling mat s3 with hs4
  have hC4 : StCool mat s4.p := optimizeCooling_estab mat s3
  obtain ⟨a4, b4, hsh4⟩ := optimizeCooling_p_shape mat s3
  have hT4 : StTemps mat s4.p := by
    rw [hs4]
    exact StTemps_mono (by rw [hsh4]) (by rw [hsh4]) hT3
  have hS4 : StSpeeds mat nd s4.p := by
    rw [hs4]
    exact StSpeeds_mono (by rw [hsh4]) (by rw [hsh4]) (by rw [hsh4]) (by rw [hsh4])
      (by rw [hsh4]) hS3
  have hR4 : StRetr mat s4.p := by
    rw [hs4]
    exact StRetr_mono (by rw [hsh4]) (by rw [hsh4]) hR3
  -- stage 5: adhesion
  set s5 := optimizeAdhesion mat s4 with hs5
  have hA5 : StAdh mat s5.p := optimizeAdhesion_estab mat s4
  obtain ⟨a5, b5, c5, hsh5⟩ := optimizeAdhesion_p_shape mat s4
  have hT5 : StTemps mat s5.p := by
    rw [hs5]
    exact StTemps_mono (by rw [hsh5]) (by rw [hsh5]) hT4
  have hS5 : StSpeeds mat nd s5.p := by
    rw [hs5]
    exact StSpeeds_mono (by rw [hsh5]) (by rw [hsh5]) (by rw [hsh5]) (by rw [hsh5])
      (by rw [hsh5]) hS4
  have hR5 : StRetr mat s5.p := by
    rw [hs5]
    exact StRetr_mono (by rw [hsh5]) (by rw [hsh5]) hR4
  have hC5 : StCool mat s5.p := by
    rw [hs5]
    exact StCool_mono (by rw [hsh5]) hC4
  -- stage 6: structure
  set s6 := optimizeStructure mat s5 with hs6
  have hSt6 : StStruct mat s6.p := optimizeStructure_estab mat s5
  obtain ⟨a6, hsh6⟩ := optimizeStructure_p_shape mat s5
  have hT6 : StTemps mat s6.p := by
    rw [hs6]
    exact StTemps_mono (by rw [hsh6]) (by rw [hsh6]) hT5
  have hS6 : StSpeeds mat nd s6.p := by
    rw [hs6]
    exact StSpeeds_mono (by rw [hsh6]) (by rw [hsh6]) (by rw [hsh6]) (by rw [hsh6])
      (by rw [hsh6]) hS5
  have hR6 : StRetr mat s6.p := by
    rw [hs6]
    exact StRetr_mono (by rw [hsh6]) (by rw [hsh6]) hR5
  have hC6 : StCool mat s6.p := by
    rw [hs6]
    exact StCool_mono (by rw [hsh6]) hC5
  have hA6 : StAdh mat s6.p := by
    rw [hs6]
    exact StAdh_mono (by rw [hsh6]) (by rw [hsh6]) (by rw [hsh6]) (by rw [hsh6]) hA5
  -- stage 7: material specifics
  set s7 := applyMaterialSpecifics mat ambient s6 with hs7
  have hSp7 : StSpec mat s7.p := applyMaterialSpecifics_estab mat ambient s6
  obtain ⟨a7, b7, c7, hsh7⟩ := applyMaterialSpecifics_p_shape_warm mat hamb s6
  have hT7 : StTemps mat s7.p := by
    rw [hs7]
    exact StTemps_mono (by rw [hsh7]) (by rw [hsh7]) hT6
  have hS7 : StSpeeds mat nd s7.p := by
    rw [hs7]
    exact StSpeeds_mono (by rw [hsh7]) (by rw [hsh7]) (by rw [hsh7]) (by rw [hsh7])
      (by rw [hsh7]) hS6
  have hR7 : StRetr mat s7.p := by
    rw [hs7]
    exact StRetr_mono (by rw [hsh7]) (by rw [hsh7]) hR6
  have hC7 : StCool mat s7.p := by
    rw [hs7]
    exact StCool_mono (by rw [hsh7]) hC6
  have hA7 : StAdh mat s7.p := by
    rw [hs7]
    exact StAdh_mono (by rw [hsh7]) (by rw [hsh7]) (by rw [hsh7]) (by rw [hsh7]) hA6
  have hSt7 : StStruct mat s7.p := by
    rw [hs7]
    exact StStruct_mono (by rw [hsh7]) hSt6
  exact ⟨hT7, hS7, hR7, hC7, hA7, hSt7, hSp7⟩

/-- On a stable parameter set, a warm-ambient non-PC pass neither changes the
parameters nor records any change. -/
theorem runPipeline_fix (mat : FilamentProfile) (nd ambient : ℚ) (st : OptSt)
    (hpc : mat.filament_type ≠ .PC) (hamb : ¬ ambient < 18)
    (h : StableAll mat nd st.p) :
    (runPipeline mat nd ambient st).p = st.p ∧
      (runPipeline mat nd ambient st).changes = st.changes := by
  obtain ⟨hT, hS, hR, hC, hA, hSt, hSp⟩ := h
  unfold runPipeline
  rw [optimizeTemperatures_fix _ _ hT, optimizeSpeeds_fix _ _ _ hS]
  obtain ⟨hp3, hc3⟩ := optimizeRetraction_fix mat st hR
  rw [optimizeCooling_fix _ _ (by rw [hp3]; exact hC)]
  rw [optimizeAdhesion_fix _ _ (by rw [hp3]; exact hA)]
  obtain ⟨hp6, hc6⟩ := optimizeStructure_fix mat _ (by rw [hp3]; exact hSt)
  obtain ⟨hp7, hc7⟩ := applyMaterialSpecifics_fix mat _ hpc hamb
    (by rw [hp6, hp3]; exact hSp)
  exact ⟨by rw [hp7, hp6, hp3], by rw [hc7, hc6, hc3]⟩

end VibePrint

namespace VibePrint

/-! ### Claim C1 — optimizer idempotence -/

theorem goodProfile_BAMBU_PLA : GoodProfile BAMBU_PLA := by
  norm_num [GoodProfile, BAMBU_PLA, FilamentProfile.is_flexible]

theorem goodProfile_BAMBU_PETG : GoodProfile BAMBU_PETG_TRANSLUCENT := by
  norm_num [GoodProfile, BAMBU_PETG_TRANSLUCENT, FilamentProfile.is_flexible]

theorem goodProfile_GENERIC_PETG : GoodProfile GENERIC_PETG := by
  norm_num [GoodProfile, GENERIC_PETG, FilamentProfile.is_flexible]

theorem goodProfile_GENERIC_TPU : GoodProfile GENERIC_TPU_95A := by
  norm_num [GoodProfile, GENERIC_TPU_95A, FilamentProfile.is_flexible]

theorem optimizeForMaterial_idem_of (mat : FilamentProfile) {material : String}
    (h : getFilamentProfile material = some mat) (hg : GoodProfile mat)
    (hpcm : mat.filament_type ≠ .PC) (params : OptimParams) (nd ambient : ℚ)
    (hamb' : ¬ ambient < 18) (houter : params.outer_wall_speed.isSome = true) :
    (optimizeForMaterial (optimizeForMaterial params material nd ambient).optimized_params
        material nd ambient).optimized_params =
      (optimizeForMaterial params material nd ambient).optimized_params ∧
    (optimizeForMaterial (optimizeForMaterial params material nd ambient).optimized_params
        material nd ambient).changes_made = [] := by
  have hstab := runPipeline_estab mat nd ambient ⟨params, [], [], []⟩ hg hamb' houter
  obtain ⟨hp, hc⟩ := runPipeline_fix mat nd ambient
    ⟨(runPipeline mat nd ambient ⟨params, [], [], []⟩).p, [], [], []⟩ hpcm hamb' hstab
  constructor
  · simp only [optimizeForMaterial, h]
    exact hp
  · simp only [optimizeForMaterial, h]
    exact hc

/-- **C1** (amended).  The optimizer is idempotent — a second
`optimize_for_material` call returns the same parameter map and an empty
change log — provided the ambient temperature is at least 18 °C (otherwise
the cold-room rule silently adds 5 °C to the bed on every run), the material
does not resolve to the PC profile (otherwise an `enable_draft_shield`
change with hard-coded old value `False` is re-recorded on every run), and
the input contains an `outer_wall_speed` key (otherwise the volumetric-flow
rule can introduce a speed above the half-max-speed cap, which the second
run then lowers again). -/
theorem C1_optimizer_idempotent
    (params : OptimParams) (material : String) (nd ambient : ℚ)
    (hamb : 18 ≤ ambient)
    (hpc : getFilamentProfile material ≠ some PRUSA_PC_BLEND)
    (houter : params.outer_wall_speed.isSome = true) :
    (optimizeForMaterial (optimizeForMaterial params material nd ambient).optimized_params
        material nd ambient).optimized_params =
      (optimizeForMaterial params material nd ambient).optimized_params ∧
    (optimizeForMaterial (optimizeForMaterial params material nd ambient).optimized_params
        material nd ambient).changes_made = [] := by
  have hamb' : ¬ ambient < 18 := not_lt.mpr hamb
  rcases getFilamentProfile_cases material with h | h | h | h | h | h
  · simp [optimizeForMaterial, h]
  · exact optimizeForMaterial_idem_of BAMBU_PLA h goodProfile_BAMBU_PLA
      (by simp [BAMBU_PLA, FilamentProfile.filament_type]) params nd ambient hamb' houter
  · exact optimizeForMaterial_idem_of BAMBU_PETG_TRANSLUCENT h goodProfile_BAMBU_PETG
      (by simp [BAMBU_PETG_TRANSLUCENT, FilamentProfile.filament_type]) params nd ambient
      hamb' houter
  · exact absurd h hpc
  · exact optimizeForMaterial_idem_of GENERIC_PETG h goodProfile_GENERIC_PETG
      (by simp [GENERIC_PETG, FilamentProfile.filament_type]) params nd ambient hamb' houter
  · exact optimizeForMaterial_idem_of GENERIC_TPU_95A h goodProfile_GENERIC_TPU
      (by simp [GENERIC_TPU_95A, FilamentProfile.filament_type]) params nd ambient hamb' houter

/-- Witness for `C1_optimizer_idempotent` at a concrete input. -/
theorem C1_witness :
    (optimizeForMaterial (optimizeForMaterial { outer_wall_speed := some 40 }
        "bambu_pla" (2/5) 22).optimized_params "bambu_pla" (2/5) 22).optimized_params =
      (optimizeForMaterial { outer_wall_speed := some 40 }
        "bambu_pla" (2/5) 22).optimized_params ∧
    (optimizeForMaterial (optimizeForMaterial { outer_wall_speed := some 40 }
        "bambu_pla" (2/5) 22).optimized_params "bambu_pla" (2/5) 22).changes_made = [] := by
  have hlook : getFilamentProfile "bambu_pla" = some BAMBU_PLA := by
    have hk : normKey "bambu_pla" = "bambu_pla" := by decide
    simp [getFilamentProfile, hk]
  refine C1_optimizer_idempotent _ _ _ _ (by norm_num) ?_ rfl
  rw [hlook]
  intro heq
  have : BAMBU_PLA.material_type = PRUSA_PC_BLEND.material_type := by
    rw [Option.some_injective _ heq]
  simp [BAMBU_PLA, PRUSA_PC_BLEND] at this

/-- A fully-optimized PC parameter set on which the second optimizer call still
records a change (the unconditional draft-shield record). -/
def cexParams : OptimParams :=
  { nozzle_temp := some 275
    bed_temp := some 110
    outer_wall_speed := some 40
    inner_wall_speed := some 50
    infill_speed := some 60
    layer_height := some (1/5)
    line_width := some (1/2)
    retraction_length := some (3/5)
    retraction_speed := some 25
    fan_speed := some 20
    brim_width := some 10
    initial_layer_speed := some 20
    initial_layer_height := some (6/25)
    wall_loops := some 3
    sparse_infill_density := some 20
    enable_draft_shield := some true }

theorem cex_s1 : optimizeTemperatures PRUSA_PC_BLEND ⟨cexParams, [], [], []⟩ =
    ⟨cexParams, [], [], []⟩ := by
  norm_num [optimizeTemperatures, tempNozzleStage, tempBedStage, cexParams, PRUSA_PC_BLEND]

theorem cex_s2 : optimizeSpeeds PRUSA_PC_BLEND (2/5) ⟨cexParams, [], [], []⟩ =
    ⟨cexParams, [], [], []⟩ := by
  norm_num [optimizeSpeeds, speedOuterStage, speedInnerStage, speedInfillStage,
    speedVolumetricStage, cexParams, PRUSA_PC_BLEND, min_def]

theorem cex_s3 : optimizeRetraction PRUSA_PC_BLEND ⟨cexParams, [], [], []⟩ =
    ⟨cexParams, [], [], []⟩ := by
  norm_num [optimizeRetraction, retrLenStage, retrSpeedStage, retrFlexStage, cexParams,
    PRUSA_PC_BLEND, FilamentProfile.is_flexible]
  simp

theorem cex_s4 : optimizeCooling PRUSA_PC_BLEND ⟨cexParams, [], [], []⟩ =
    ⟨cexParams, [], [], []⟩ := by
  norm_num [optimizeCooling, cexParams, PRUSA_PC_BLEND, FilamentProfile.filament_type]

theorem cex_s5 : optimizeAdhesion PRUSA_PC_BLEND ⟨cexParams, [], [], []⟩ =
    ⟨cexParams, [], [], []⟩ := by
  norm_num [optimizeAdhesion, adhBrimStage, adhFirstSpeedStage, adhFirstHeightStage,
    cexParams, PRUSA_PC_BLEND, FilamentProfile.filament_type]

theorem cex_s6 : optimizeStructure PRUSA_PC_BLEND ⟨cexParams, [], [], []⟩ =
    ⟨cexParams, [], [], []⟩ := by
  norm_num [optimizeStructure, cexParams, PRUSA_PC_BLEND, FilamentProfile.is_flexible]

theorem cex_s7 : applyMaterialSpecifics PRUSA_PC_BLEND 22 ⟨cexParams, [], [], []⟩ =
    ⟨cexParams,
      [⟨"enable_draft_shield", some (.bool false), some (.bool true),
        "Draft shield helps PC on open frame printers"⟩],
      ["Polycarbonate prints best enclosed; A1 is open frame"], []⟩ := by
  norm_num [applyMaterialSpecifics, specAmsStage, specPcStage, specColdStage, specPetgStage,
    recChange, cexParams, PRUSA_PC_BLEND, FilamentProfile.filament_type]
  simp

theorem cex_run : runPipeline PRUSA_PC_BLEND (2/5) 22 ⟨cexParams, [], [], []⟩ =
    ⟨cexParams,
      [⟨"enable_draft_shield", some (.bool false), some (.bool true),
        "Draft shield helps PC on open frame printers"⟩],
      ["Polycarbonate prints best enclosed; A1 is open frame"], []⟩ := by
  unfold runPipeline
  rw [cex_s1, cex_s2, cex_s3, cex_s4, cex_s5, cex_s6, cex_s7]

/-- **C1 counterexample.**  On a fully-optimized polycarbonate parameter set
the second optimizer call still records a change — `enable_draft_shield` with
hard-coded old value `False` — so the claimed empty second change log fails. -/
theorem C1_counterexample :
    (optimizeForMaterial (optimizeForMaterial cexParams "prusa_pc" (2/5) 22).optimized_params
      "prusa_pc" (2/5) 22).changes_made ≠ [] := by
  have hlook : getFilamentProfile "prusa_pc" = some PRUSA_PC_BLEND := by
    have hk : normKey "prusa_pc" = "prusa_pc" := by decide
    simp [getFilamentProfile, hk]
  simp only [optimizeForMaterial, hlook, cex_run]
  simp

end VibePrint

namespace VibePrint

/-! ### Claim C2 — the temperature rule -/

theorem tempNozzleStage_changes (mat : FilamentProfile) (st : OptSt)
    (h : (tempNozzleStage mat st).p.nozzle_temp ≠ st.p.nozzle_temp) :
    ∃ c ∈ (tempNozzleStage mat st).changes, c.parameter = "nozzle_temp" := by
  unfold tempNozzleStage at h ⊢
  rcases hn : st.p.nozzle_temp with _ | t <;> rw [hn] at h <;> dsimp only at h ⊢
  · unfold recChange
    split_ifs with hne
    · exact ⟨_, List.mem_append_right _ (List.mem_singleton_self _), rfl⟩
    · simp at hne
  · split_ifs at h ⊢ with h1 h2
    · unfold recChange
      split_ifs with hne
      · exact ⟨_, List.mem_append_right _ (List.mem_singleton_self _), rfl⟩
      · simp only [recChange_p] at h
        simp at h hne
        exact absurd hne.symm h
    · unfold recChange
      split_ifs with hne
      · exact ⟨_, List.mem_append_right _ (List.mem_singleton_self _), rfl⟩
      · simp only [recChange_p] at h
        simp at h hne
        exact absurd hne.symm h
    · exact absurd hn h

theorem tempBedStage_changes (mat : FilamentProfile) (st : OptSt)
    (h : (tempBedStage mat st).p.bed_temp ≠ st.p.bed_temp) :
    ∃ c ∈ (tempBedStage mat st).changes, c.parameter = "bed_temp" := by
  unfold tempBedStage at h ⊢
  rcases hb : st.p.bed_temp with _ | b <;> rw [hb] at h <;> dsimp only at h ⊢
  · unfold recChange
    split_ifs with hne
    · exact ⟨_, List.mem_append_right _ (List.mem_singleton_self _), rfl⟩
    · simp at hne
  · split_ifs at h ⊢ with h1
    · unfold recChange
      split_ifs with hne
      · exact ⟨_, List.mem_append_right _ (List.mem_singleton_self _), rfl⟩
      · simp only [recChange_p] at h
        simp at h hne
        exact absurd hne.symm h
    · exact absurd hb h

theorem tempBedStage_changes_mono (mat : FilamentProfile) (st : OptSt) (c : Change)
    (h : c ∈ st.changes) : c ∈ (tempBedStage mat st).changes := by
  unfold tempBedStage recChange
  repeat' split
  all_goals simp_all

/-- **C2** (amended).  The temperature rule leaves the nozzle temperature in
the filament's `[min, max]` range — an out-of-range value is reset to the
optimal, not clamped to the violated bound — and sets absent temperatures to
the optimal.  The bed temperature is reset to optimal only when it is *below*
the minimum; a bed temperature above the maximum is left unchanged (no upper
clamp, contrary to the claim).  Every modified temperature gets a change-log
entry naming its key. -/
theorem C2_temperature_rule (mat : FilamentProfile) (st : OptSt)
    (h1 : mat.nozzle_temp.min_temp ≤ mat.nozzle_temp.optimal)
    (h2 : mat.nozzle_temp.optimal ≤ mat.nozzle_temp.max_temp)
    (h3 : mat.bed_temp.min_temp ≤ mat.bed_temp.optimal) :
    (∃ t, (optimizeTemperatures mat st).p.nozzle_temp = some t ∧
      mat.nozzle_temp.min_temp ≤ t ∧ t ≤ mat.nozzle_temp.max_temp) ∧
    (st.p.nozzle_temp = none →
      (optimizeTemperatures mat st).p.nozzle_temp = some mat.nozzle_temp.optimal) ∧
    (st.p.bed_temp = none →
      (optimizeTemperatures mat st).p.bed_temp = some mat.bed_temp.optimal) ∧
    (∀ b, st.p.bed_temp = some b →
      (optimizeTemperatures mat st).p.bed_temp =
        (if b < mat.bed_temp.min_temp then some mat.bed_temp.optimal else some b)) ∧
    ((optimizeTemperatures mat st).p.nozzle_temp ≠ st.p.nozzle_temp →
      ∃ c ∈ (optimizeTemperatures mat st).changes, c.parameter = "nozzle_temp") ∧
    ((optimizeTemperatures mat st).p.bed_temp ≠ st.p.bed_temp →
      ∃ c ∈ (optimizeTemperatures mat st).changes, c.parameter = "bed_temp") := by
  obtain ⟨a, hsh⟩ := tempBedStage_p_shape mat (tempNozzleStage mat st)
  obtain ⟨an, hshn⟩ := tempNozzleStage_p_shape mat st
  refine ⟨?_, ?_, ?_, ?_, ?_, ?_⟩
  · obtain ⟨t, ht, htb⟩ := tempNozzleStage_post mat st h1 h2
    exact ⟨t, by unfold optimizeTemperatures; rw [hsh]; simpa using ht, htb⟩
  · intro hn
    unfold optimizeTemperatures
    rw [hsh]
    suffices h : (tempNozzleStage mat st).p.nozzle_temp = some mat.nozzle_temp.optimal by
      simpa using h
    unfold tempNozzleStage
    rw [hn]
    simp
  · intro hb
    have hbed : (tempNozzleStage mat st).p.bed_temp = none := by
      rw [hshn]; simpa using hb
    unfold optimizeTemperatures tempBedStage
    rw [hbed]
    simp
  · intro b hb
    have hbed : (tempNozzleStage mat st).p.bed_temp = some b := by
      rw [hshn]; simpa using hb
    unfold optimizeTemperatures tempBedStage
    rw [hbed]
    dsimp only
    split_ifs with hc
    · simp
    · simpa using hbed
  · intro hne
    unfold optimizeTemperatures at hne ⊢
    rw [hsh] at hne
    simp only at hne
    have := tempNozzleStage_changes mat st (by simpa using hne)
    obtain ⟨c, hc1, hc2⟩ := this
    exact ⟨c, tempBedStage_changes_mono mat _ c hc1, hc2⟩
  · intro hne
    unfold optimizeTemperatures at hne ⊢
    have hbedn : (tempNozzleStage mat st).p.bed_temp = st.p.bed_temp := by
      rw [hshn]
    apply tempBedStage_changes
    rw [hbedn]
    exact hne

/-- Witness for `C2_temperature_rule` on the PLA profile and an empty map. -/
theorem C2_witness :
    ((∃ t, (optimizeTemperatures BAMBU_PLA ⟨{}, [], [], []⟩).p.nozzle_temp = some t ∧
      BAMBU_PLA.nozzle_temp.min_temp ≤ t ∧ t ≤ BAMBU_PLA.nozzle_temp.max_temp) ∧
    ((⟨{}, [], [], []⟩ : OptSt).p.nozzle_temp = none →
      (optimizeTemperatures BAMBU_PLA ⟨{}, [], [], []⟩).p.nozzle_temp =
        some BAMBU_PLA.nozzle_temp.optimal) ∧
    ((⟨{}, [], [], []⟩ : OptSt).p.bed_temp = none →
      (optimizeTemperatures BAMBU_PLA ⟨{}, [], [], []⟩).p.bed_temp =
        some BAMBU_PLA.bed_temp.optimal) ∧
    (∀ b, (⟨{}, [], [], []⟩ : OptSt).p.bed_temp = some b →
      (optimizeTemperatures BAMBU_PLA ⟨{}, [], [], []⟩).p.bed_temp =
        (if b < BAMBU_PLA.bed_temp.min_temp then some BAMBU_PLA.bed_temp.optimal
          else some b)) ∧
    ((optimizeTemperatures BAMBU_PLA ⟨{}, [], [], []⟩).p.nozzle_temp ≠
        (⟨{}, [], [], []⟩ : OptSt).p.nozzle_temp →
      ∃ c ∈ (optimizeTemperatures BAMBU_PLA ⟨{}, [], [], []⟩).changes,
        c.parameter = "nozzle_temp") ∧
    ((optimizeTemperatures BAMBU_PLA ⟨{}, [], [], []⟩).p.bed_temp ≠
        (⟨{}, [], [], []⟩ : OptSt).p.bed_temp →
      ∃ c ∈ (optimizeTemperatures BAMBU_PLA ⟨{}, [], [], []⟩).changes,
        c.parameter = "bed_temp")) :=
  C2_temperature_rule BAMBU_PLA ⟨{}, [], [], []⟩
    (by norm_num [BAMBU_PLA]) (by norm_num [BAMBU_PLA]) (by norm_num [BAMBU_PLA])

/-- **C2 counterexample.**  With PLA (bed max 65 °C) a bed temperature of
200 °C passes through the temperature rule unchanged: the bed is *not*
clamped into the filament's range. -/
theorem C2_counterexample :
    (optimizeTemperatures BAMBU_PLA
        ⟨{ nozzle_temp := some 220, bed_temp := some 200 }, [], [], []⟩).p.bed_temp =
      some 200 ∧
    ¬ (200 : ℚ) ≤ BAMBU_PLA.bed_temp.max_temp := by
  constructor
  · norm_num [optimizeTemperatures, tempNozzleStage, tempBedStage, BAMBU_PLA]
  · norm_num [BAMBU_PLA]

end VibePrint

namespace VibePrint

/-! ### Defect analyzer — quality score and should-pause

From `src/vibe_print/camera/detector.py`.  The image-processing detectors are
out of scope (external pixel input); `_calculate_quality_score` and the
`DetectionResult` properties are embedded. -/

inductive DefectType where
  | layer_shift | stringing | warping | blob | under_extrusion
  | over_extrusion | poor_adhesion | spaghetti | nozzle_clog | layer_separation
  deriving DecidableEq, Repr

/-- The `.value` string of a `DefectType` member. -/
def DefectType.val : DefectType → String
  | .layer_shift => "layer_shift"
  | .stringing => "stringing"
  | .warping => "warping"
  | .blob => "blob"
  | .under_extrusion => "under_extrusion"
  | .over_extrusion => "over_extrusion"
  | .poor_adhesion => "poor_adhesion"
  | .spaghetti => "spaghetti"
  | .nozzle_clog => "nozzle_clog"
  | .layer_separation => "layer_separation"

inductive Severity where
  | info | warning | critical
  deriving DecidableEq, Repr

structure DetectedDefect where
  defect_type : DefectType
  severity : Severity
  confidence : ℚ
  deriving DecidableEq, Repr

/-- The loop body of `DefectDetector._calculate_quality_score`. -/
def scoreStep (s : ℚ) (d : DetectedDefect) : ℚ :=
  if d.severity = .critical then s - 40 * d.confidence
  else if d.severity = .warning then s - 20 * d.confidence
  else s - 5 * d.confidence

/-- `DefectDetector._calculate_quality_score`: start at 100, subtract per
defect, floor the final sum at 0. -/
def calculateQualityScore (ds : List DetectedDefect) : ℚ :=
  max 0 (ds.foldl scoreStep 100)

/-- The fields of `DetectionResult` its pause decision reads. -/
structure DetectionResult where
  frame_analyzed : Bool
  defects : List DetectedDefect
  print_quality_score : ℚ
  deriving DecidableEq, Repr

/-- `DetectionResult.has_critical_defects`. -/
def DetectionResult.has_critical_defects (r : DetectionResult) : Bool :=
  r.defects.any (fun d => d.severity = .critical)

/-- `DetectionResult.should_pause` = critical present or score below 30. -/
def DetectionResult.should_pause (r : DetectionResult) : Bool :=
  r.has_critical_defects || decide (r.print_quality_score < 30)

/-- The per-defect deduction weight `{critical: 40, warning: 20, info: 5}`. -/
def severityDeduction : Severity → ℚ
  | .critical => 40
  | .warning => 20
  | .info => 5

theorem scoreStep_eq (s : ℚ) (d : DetectedDefect) :
    scoreStep s d = s - severityDeduction d.severity * d.confidence := by
  unfold scoreStep severityDeduction
  rcases d.severity <;> simp

theorem foldl_scoreStep (ds : List DetectedDefect) (s : ℚ) :
    ds.foldl scoreStep s =
      s - (ds.map (fun d => severityDeduction d.severity * d.confidence)).sum := by
  induction ds generalizing s with
  | nil => simp
  | cons d tl ih =>
    simp only [List.foldl_cons, List.map_cons, List.sum_cons, scoreStep_eq, ih]
    ring

end VibePrint

namespace VibePrint

/-- **C4** (amended).  The quality score is `max 0 (100 − Σ weight·confidence)`
with weights `{critical: 40, warning: 20, info: 5}`; for one critical defect at
confidence 1.0 plus one info defect at confidence 0.4 this gives **58** (not
78), and `should_pause` is true because a critical defect is present. -/
theorem C4_defect_score :
    (∀ ds : List DetectedDefect,
      calculateQualityScore ds =
        max 0 (100 - (ds.map (fun d => severityDeduction d.severity * d.confidence)).sum)) ∧
    calculateQualityScore [⟨.spaghetti, .critical, 1⟩, ⟨.stringing, .info, 2/5⟩] = 58 ∧
    DetectionResult.should_pause
      ⟨true, [⟨.spaghetti, .critical, 1⟩, ⟨.stringing, .info, 2/5⟩],
        calculateQualityScore [⟨.spaghetti, .critical, 1⟩, ⟨.stringing, .info, 2/5⟩]⟩ =
      true := by
  refine ⟨fun ds => ?_, ?_, ?_⟩
  · unfold calculateQualityScore
    rw [foldl_scoreStep]
  · have h1 : (Severity.info = Severity.critical) = False := by simp
    have h2 : (Severity.info = Severity.warning) = False := by simp
    have h3 : (Severity.critical = Severity.critical) = True := by simp
    simp only [calculateQualityScore, scoreStep, List.foldl_cons, List.foldl_nil,
      h1, h2, h3, if_false, if_true]
    norm_num [max_def]
  · simp [DetectionResult.should_pause, DetectionResult.has_critical_defects]

/-- **C4 counterexample.**  The claimed score 78 is wrong: the code's own
formula yields `100 − 40·1.0 − 5·0.4 = 58` for that defect pair. -/
theorem C4_counterexample :
    calculateQualityScore [⟨.spaghetti, .critical, 1⟩, ⟨.stringing, .info, 2/5⟩] ≠ 78 := by
  have h1 : (Severity.info = Severity.critical) = False := by simp
  have h2 : (Severity.info = Severity.warning) = False := by simp
  have h3 : (Severity.critical = Severity.critical) = True := by simp
  simp only [calculateQualityScore, scoreStep, List.foldl_cons, List.foldl_nil,
    h1, h2, h3, if_false, if_true]
  norm_num [max_def]

end VibePrint

namespace VibePrint

/-! ### Slicing recipe

From `get_recommended_settings` in `src/bambustudio_mcp/wizard/slicing_review.py`
(the fetched nozzle profile is never used there). -/

inductive QualityPreset where
  | draft | standard | quality | ultra
  deriving DecidableEq, Repr

inductive PrintUseCase where
  | decorative | functional | prototype | gift
  deriving DecidableEq, Repr

/-- One row of `SlicingReviewer.QUALITY_SETTINGS`. -/
structure QualitySettings where
  layer_height_ratio : ℚ
  wall_loops : ℚ
  infill_density : ℚ
  speed_factor : ℚ
  deriving DecidableEq, Repr

def qualitySettings : QualityPreset → QualitySettings
  | .draft => ⟨7/10, 2, 15, 6/5⟩
  | .standard => ⟨1/2, 3, 20, 1⟩
  | .quality => ⟨7/20, 4, 25, 4/5⟩
  | .ultra => ⟨1/4, 5, 30, 3/5⟩

/-- The settings dict built by `get_recommended_settings`. -/
structure RecommendedSettings where
  layer_height : ℚ
  wall_loops : ℚ
  sparse_infill_density : ℚ
  sparse_infill_pattern : String
  nozzle_temp : Option ℚ := none
  bed_temp : Option ℚ := none
  outer_wall_speed : Option ℚ := none
  inner_wall_speed : Option ℚ := none
  infill_speed : Option ℚ := none
  retraction_length : Option ℚ := none
  retraction_speed : Option ℚ := none
  initial_layer_speed : ℚ
  initial_layer_height : ℚ
  brim_width : ℚ
  deriving DecidableEq, Repr

/-- Python's `sub in name` substring test. -/
def nameContains (name sub : String) : Bool := decide (sub.data <:+: name.data)

/-- `get_recommended_settings(material, nozzle_diameter, quality, use_case)`. -/
def getRecommendedSettings (material : String) (nd : ℚ)
    (quality : QualityPreset) (use_case : PrintUseCase) : RecommendedSettings :=
  let mp := getFilamentProfile material
  let qs := qualitySettings quality
  let layer_height := ((roundHalfEven (nd * qs.layer_height_ratio * 25) : ℤ) : ℚ) * (1/25)
  let base_walls := if use_case = .functional then max qs.wall_loops 4 else qs.wall_loops
  let base_infill :=
    if use_case = .functional then max qs.infill_density 25
    else if use_case = .prototype then min qs.infill_density 15
    else qs.infill_density
  let pattern := if use_case = .functional then "gyroid" else "grid"
  let brim : ℚ :=
    match mp with
    | some p =>
      if nameContains p.name "PC" || nameContains p.name "ABS" || nameContains p.name "Nylon"
      then 8 else 5
    | none => 5
  match mp with
  | some p =>
    let max_speed := p.max_print_speed * qs.speed_factor
    { layer_height := layer_height
      wall_loops := base_walls
      sparse_infill_density := base_infill
      sparse_infill_pattern := pattern
      nozzle_temp := some p.nozzle_temp.optimal
      bed_temp := some p.bed_temp.optimal
      outer_wall_speed := some ((min (pytrunc (max_speed * (3/5))) 80 : ℤ) : ℚ)
      inner_wall_speed := some ((min (pytrunc (max_speed * (4/5))) 120 : ℤ) : ℚ)
      infill_speed := some ((min (pytrunc max_speed) 150 : ℤ) : ℚ)
      retraction_length := some p.retraction_length
      retraction_speed := some p.retraction_speed
      initial_layer_speed := 25
      initial_layer_height := layer_height * (6/5)
      brim_width := brim }
  | none =>
    { layer_height := layer_height
      wall_loops := base_walls
      sparse_infill_density := base_infill
      sparse_infill_pattern := pattern
      initial_layer_speed := 25
      initial_layer_height := layer_height * (6/5)
      brim_width := brim }

theorem getRecommendedSettings_core (material : String) (nd : ℚ)
    (quality : QualityPreset) (use_case : PrintUseCase) :
    (getRecommendedSettings material nd quality use_case).wall_loops =
      (if use_case = .functional then max (qualitySettings quality).wall_loops 4
        else (qualitySettings quality).wall_loops) ∧
    (getRecommendedSettings material nd quality use_case).sparse_infill_density =
      (if use_case = .functional then max (qualitySettings quality).infill_density 25
        else if use_case = .prototype then min (qualitySettings quality).infill_density 15
        else (qualitySettings quality).infill_density) ∧
    (getRecommendedSettings material nd quality use_case).sparse_infill_pattern =
      (if use_case = .functional then "gyroid" else "grid") := by
  unfold getRecommendedSettings
  dsimp only
  rcases getFilamentProfile material with _ | p <;> exact ⟨rfl, rfl, rfl⟩

/-- **C5** (amended).  Use-case adjustments after the quality preset:
`functional` raises wall loops to ≥ 4, infill to ≥ 25 % and uses the gyroid
pattern; `prototype` caps infill at **15 %** (not 10) and leaves the preset's
wall count; `decorative` and `gift` apply **no** adjustment at all (preset
walls and infill, grid pattern). -/
theorem C5_use_case_adjustments (material : String) (nd : ℚ) (quality : QualityPreset) :
    (4 ≤ (getRecommendedSettings material nd quality .functional).wall_loops ∧
     25 ≤ (getRecommendedSettings material nd quality .functional).sparse_infill_density ∧
     (getRecommendedSettings material nd quality .functional).sparse_infill_pattern =
       "gyroid") ∧
    ((getRecommendedSettings material nd quality .prototype).sparse_infill_density ≤ 15 ∧
     (getRecommendedSettings material nd quality .prototype).wall_loops =
       (qualitySettings quality).wall_loops) ∧
    ((getRecommendedSettings material nd quality .decorative).wall_loops =
       (qualitySettings quality).wall_loops ∧
     (getRecommendedSettings material nd quality .decorative).sparse_infill_density =
       (qualitySettings quality).infill_density ∧
     (getRecommendedSettings material nd quality .decorative).sparse_infill_pattern =
       "grid") ∧
    ((getRecommendedSettings material nd quality .gift).wall_loops =
       (qualitySettings quality).wall_loops ∧
     (getRecommendedSettings material nd quality .gift).sparse_infill_density =
       (qualitySettings quality).infill_density ∧
     (getRecommendedSettings material nd quality .gift).sparse_infill_pattern = "grid") := by
  obtain ⟨hf1, hf2, hf3⟩ := getRecommendedSettings_core material nd quality .functional
  obtain ⟨hp1, hp2, hp3⟩ := getRecommendedSettings_core material nd quality .prototype
  obtain ⟨hd1, hd2, hd3⟩ := getRecommendedSettings_core material nd quality .decorative
  obtain ⟨hg1, hg2, hg3⟩ := getRecommendedSettings_core material nd quality .gift
  refine ⟨⟨?_, ?_, ?_⟩, ⟨?_, ?_⟩, ⟨?_, ?_, ?_⟩, ⟨?_, ?_, ?_⟩⟩
  · rw [hf1]; simp
  · rw [hf2]; simp
  · rw [hf3]; simp
  · rw [hp2]; simp
  · rw [hp1]; simp
  · rw [hd1]; simp
  · rw [hd2]; simp
  · rw [hd3]; simp
  · rw [hg1]; simp
  · rw [hg2]; simp
  · rw [hg3]; simp

/-- **C5 counterexample.**  For use-case `decorative` at the `standard` preset
the infill stays at the preset's 20 % — it is not capped at 15 % — and for
`prototype` at `ultra` the infill is 15 % (not 10) with 5 walls (not 2). -/
theorem C5_counterexample :
    (getRecommendedSettings "bambu_pla" (2/5) .standard .decorative).sparse_infill_density =
      20 ∧ ¬ ((20 : ℚ) ≤ 15) ∧
    (getRecommendedSettings "bambu_pla" (2/5) .ultra .prototype).sparse_infill_density = 15 ∧
    (getRecommendedSettings "bambu_pla" (2/5) .ultra .prototype).wall_loops = 5 := by
  obtain ⟨hd1, hd2, hd3⟩ := getRecommendedSettings_core "bambu_pla" (2/5) .standard .decorative
  obtain ⟨hp1, hp2, hp3⟩ := getRecommendedSettings_core "bambu_pla" (2/5) .ultra .prototype
  refine ⟨?_, by norm_num, ?_, ?_⟩
  · rw [hd2]; simp [qualitySettings]
  · rw [hp2]; simp [qualitySettings]; norm_num [min_def]
  · rw [hp1]; simp [qualitySettings]

end VibePrint

namespace VibePrint

/-! ### Recommender

From `src/vibe_print/iteration/recommender.py` with the `SlicingParameters`
dataclass of `src/bambustudio_mcp/slicer/parameters.py` (every attribute the
recommender reads exists on the dataclass, so `getattr(..., None)` only
returns `None` for keys outside it).  History reasons embed the best print's
quality in an f-string; reason texts are abbreviated here, no claim reads
them. -/

/-- The fields of `SlicingParameters` the recommender can read, with the
dataclass defaults. -/
structure SlicingParameters where
  layer_height : ℚ := 1/5
  initial_layer_height : ℚ := 1/5
  wall_loops : ℚ := 2
  sparse_infill_density : ℚ := 15
  outer_wall_speed : ℚ := 60
  inner_wall_speed : ℚ := 80
  sparse_infill_speed : ℚ := 150
  travel_speed : ℚ := 300
  initial_layer_speed : ℚ := 30
  nozzle_temperature : ℚ := 220
  bed_temperature : ℚ := 60
  bed_temperature_initial_layer : ℚ := 60
  brim_width : ℚ := 0
  retraction_length : ℚ := 4/5
  retraction_speed : ℚ := 30
  deriving DecidableEq, Repr

/-- `getattr(current_params, name, None)` over the embedded field set. -/
def paramGet (p : SlicingParameters) : String → Option ℚ
  | "layer_height" => some p.layer_height
  | "initial_layer_height" => some p.initial_layer_height
  | "wall_loops" => some p.wall_loops
  | "sparse_infill_density" => some p.sparse_infill_density
  | "outer_wall_speed" => some p.outer_wall_speed
  | "inner_wall_speed" => some p.inner_wall_speed
  | "sparse_infill_speed" => some p.sparse_infill_speed
  | "travel_speed" => some p.travel_speed
  | "initial_layer_speed" => some p.initial_layer_speed
  | "nozzle_temperature" => some p.nozzle_temperature
  | "bed_temperature" => some p.bed_temperature
  | "bed_temperature_initial_layer" => some p.bed_temperature_initial_layer
  | "brim_width" => some p.brim_width
  | "retraction_length" => some p.retraction_length
  | "retraction_speed" => some p.retraction_speed
  | _ => none

structure Recommendation where
  parameter : String
  current_value : ℚ
  suggested_value : ℚ
  reason : String
  confidence : ℚ
  priority : ℕ
  deriving DecidableEq, Repr

/-- `ParameterRecommender.DEFECT_ADJUSTMENTS`, keyed by `DefectType.value`. -/
def defectAdjustments : String → Option (List (String × ℚ × String))
  | "layer_shift" => some
      [("outer_wall_speed", -10, "Reduce outer wall speed to minimize vibration"),
       ("inner_wall_speed", -15, "Reduce inner wall speed"),
       ("travel_speed", -50, "Reduce travel speed to minimize jerky movements")]
  | "stringing" => some
      [("retraction_length", 1/2, "Increase retraction to reduce oozing"),
       ("retraction_speed", 5, "Increase retraction speed"),
       ("nozzle_temperature", -5, "Lower temperature reduces oozing"),
       ("travel_speed", 20, "Faster travel gives less time to ooze")]
  | "warping" => some
      [("bed_temperature", 5, "Higher bed temp improves adhesion"),
       ("bed_temperature_initial_layer", 10, "Higher initial bed temp"),
       ("brim_width", 5, "Larger brim for better adhesion"),
       ("initial_layer_speed", -10, "Slower first layer for better adhesion")]
  | "blob" => some
      [("retraction_length", 3/10, "More retraction at seams"),
       ("outer_wall_speed", -5, "Slower walls for cleaner seams")]
  | "under_extrusion" => some
      [("nozzle_temperature", 10, "Higher temp for better flow"),
       ("sparse_infill_speed", -20, "Slower infill to ensure full extrusion")]
  | "over_extrusion" => some
      [("nozzle_temperature", -5, "Lower temp to reduce flow")]
  | "poor_adhesion" => some
      [("bed_temperature_initial_layer", 10, "Higher bed temp for adhesion"),
       ("initial_layer_height", 1/20, "Thicker first layer squishes better"),
       ("initial_layer_speed", -10, "Slower first layer"),
       ("brim_width", 8, "Add substantial brim")]
  | "spaghetti" => some
      [("brim_width", 10, "Significant brim needed"),
       ("initial_layer_speed", -15, "Much slower first layer"),
       ("bed_temperature_initial_layer", 15, "Higher bed temp"),
       ("initial_layer_height", 1/10, "Thicker first layer")]
  | _ => none

/-- `ParameterRecommender._apply_limits`. -/
def applyLimits (param : String) (value : ℚ) : ℚ :=
  match param with
  | "outer_wall_speed" => max 20 (min 150 value)
  | "inner_wall_speed" => max 30 (min 200 value)
  | "sparse_infill_speed" => max 50 (min 300 value)
  | "travel_speed" => max 100 (min 500 value)
  | "nozzle_temperature" => max 180 (min 280 value)
  | "bed_temperature" => max 40 (min 110 value)
  | "bed_temperature_initial_layer" => max 40 (min 110 value)
  | "retraction_length" => max (1/5) (min 5 value)
  | "retraction_speed" => max 20 (min 80 value)
  | "brim_width" => max 0 (min 20 value)
  | "initial_layer_speed" => max 10 (min 50 value)
  | "initial_layer_height" => max (1/10) (min (2/5) value)
  | "layer_height" => max (2/25) (min (8/25) value)
  | _ => value

/-- `ParameterRecommender._get_defect_priority`. -/
def getDefectPriority (defect : String) : ℕ :=
  match defect with
  | "spaghetti" => 1
  | "layer_shift" => 1
  | "poor_adhesion" => 1
  | "warping" => 2
  | "under_extrusion" => 2
  | "over_extrusion" => 3
  | "stringing" => 3
  | "blob" => 4
  | _ => 5

/-- History record fields the recommender reads (`parameters` is the stored
dict, whose keys may be absent). -/
structure HistParams where
  layer_height : Option ℚ := none
  wall_loops : Option ℚ := none
  sparse_infill_density : Option ℚ := none
  outer_wall_speed : Option ℚ := none
  deriving DecidableEq, Repr

/-- `best_params.get(param)` for the four compared keys. -/
def histGet (h : HistParams) : String → Option ℚ
  | "layer_height" => h.layer_height
  | "wall_loops" => h.wall_loops
  | "sparse_infill_density" => h.sparse_infill_density
  | "outer_wall_speed" => h.outer_wall_speed
  | _ => none

structure PrintIteration where
  status : String
  quality_score : Option ℚ
  parameters : Option HistParams
  deriving DecidableEq, Repr

/-- The filter in `_learn_from_history`: completed, quality strictly above 80,
parameters present. -/
def isSuccessful (i : PrintIteration) : Bool :=
  i.status = "completed" &&
    (match i.quality_score with
     | some q => decide (q > 80)
     | none => false) &&
    i.parameters.isSome

/-- Python's `max(successful, key=lambda i: i.quality_score or 0)` — the first
element attaining the maximum. -/
def bestIteration (hd : PrintIteration) (tl : List PrintIteration) : PrintIteration :=
  tl.foldl (fun acc i =>
    if (i.quality_score.getD 0) > (acc.quality_score.getD 0) then i else acc) hd

/-- The four keys compared by `_learn_from_history`. -/
def compareParams : List String :=
  ["layer_height", "wall_loops", "sparse_infill_density", "outer_wall_speed"]

/-- Loop body of `_learn_from_history` over one compared key. -/
def learnStep (cp : SlicingParameters) (bp : HistParams)
    (acc : List Recommendation) (param : String) : List Recommendation :=
  match paramGet cp param, histGet bp param with
  | some current, some best_value =>
    if current ≠ best_value then
      acc ++ [⟨param, current, best_value, "Value used in successful print", 1/2, 3⟩]
    else acc
  | _, _ => acc

/-- `ParameterRecommender._learn_from_history`. -/
def learnFromHistory (cp : SlicingParameters) (iterations : List PrintIteration) :
    List Recommendation :=
  match iterations.filter isSuccessful with
  | [] => []
  | hd :: tl =>
    let best := bestIteration hd tl
    match best.parameters with
    | none => []
    | some bp => compareParams.foldl (learnStep cp bp) []

/-- State threaded through `get_recommendations`: the accumulating list and
the `seen_params` set (modelled as a list). -/
structure RecAcc where
  recs : List Recommendation
  seen : List String
  deriving Repr

/-- Inner loop body of the defect phase (one table row). -/
def defectRow (cp : SlicingParameters) (defect : String) (acc : RecAcc)
    (row : String × ℚ × String) : RecAcc :=
  let (param, adjustment, reason) := row
  if param ∈ acc.seen then acc
  else
    let seen' := acc.seen ++ [param]
    match paramGet cp param with
    | none => ⟨acc.recs, seen'⟩
    | some current =>
      ⟨acc.recs ++ [⟨param, current, applyLimits param (current + adjustment),
        reason ++ " (addressing " ++ defect ++ ")", 7/10, getDefectPriority defect⟩],
       seen'⟩

/-- Defect phase of `get_recommendations`. -/
def defectPhase (cp : SlicingParameters) (defects : List String) : RecAcc :=
  defects.foldl (fun acc defect =>
    match defectAdjustments defect with
    | none => acc
    | some rows => rows.foldl (defectRow cp defect) acc) ⟨[], []⟩

/-- Quality-score phase: a low score adds an `outer_wall_speed` slow-down
recommendation, without marking the parameter as seen. -/
def qualityPhase (cp : SlicingParameters) (quality_score : Option ℚ) (acc : RecAcc) :
    RecAcc :=
  match quality_score with
  | some q =>
    if q < 50 then
      if "outer_wall_speed" ∈ acc.seen then acc
      else
        ⟨acc.recs ++ [⟨"outer_wall_speed", cp.outer_wall_speed,
          max 30 (cp.outer_wall_speed * (7/10)),
          "Significantly reduce speed for better quality", 3/5, 2⟩], acc.seen⟩
    else acc
  | none => acc

/-- History phase: history recommendations for unseen parameters. -/
def historyPhase (cp : SlicingParameters) (iterations : List PrintIteration)
    (acc : RecAcc) : RecAcc :=
  if iterations = [] then acc
  else
    (learnFromHistory cp iterations).foldl (fun a r =>
      if r.parameter ∈ a.seen then a
      else ⟨a.recs ++ [r], a.seen ++ [r.parameter]⟩) acc

/-- The sort key comparison `(priority, -confidence)` ascending. -/
def recLE (a b : Recommendation) : Bool :=
  decide (a.priority < b.priority ∨
    (a.priority = b.priority ∧ b.confidence ≤ a.confidence))

/-- `ParameterRecommender.get_recommendations` (Python's stable `list.sort`
with key `(priority, -confidence)` is `List.mergeSort` with `recLE`). -/
def getRecommendations (cp : SlicingParameters) (defects : List String)
    (quality_score : Option ℚ) (iterations : List PrintIteration) :
    List Recommendation :=
  (historyPhase cp iterations (qualityPhase cp quality_score
    (defectPhase cp defects))).recs.mergeSort recLE

end VibePrint

namespace VibePrint

/-! ### Claim C6 — history learning -/

theorem learnFold_mem (cp : SlicingParameters) (bp : HistParams) (keys : List String)
    (acc : List Recommendation) (r : Recommendation) :
    (r ∈ keys.foldl (learnStep cp bp) acc ↔
      r ∈ acc ∨ ∃ param ∈ keys, ∃ current bv,
        paramGet cp param = some current ∧ histGet bp param = some bv ∧
        current ≠ bv ∧
        r = ⟨param, current, bv, "Value used in successful print", 1/2, 3⟩) := by
  induction keys generalizing acc with
  | nil => simp
  | cons k ks ih =>
    rw [List.foldl_cons, ih]
    unfold learnStep
    rcases hc : paramGet cp k with _ | c <;> rcases hb : histGet bp k with _ | b
    · simp only [List.mem_cons]
      constructor
      · rintro (h | ⟨p, hp, rest⟩)
        · exact Or.inl h
        · exact Or.inr ⟨p, Or.inr hp, rest⟩
      · rintro (h | ⟨p, (rfl | hp), cur, bv, hcur, hrest⟩)
        · exact Or.inl h
        · rw [hc] at hcur; exact absurd hcur (by simp)
        · exact Or.inr ⟨p, hp, cur, bv, hcur, hrest⟩
    · simp only [List.mem_cons]
      constructor
      · rintro (h | ⟨p, hp, rest⟩)
        · exact Or.inl h
        · exact Or.inr ⟨p, Or.inr hp, rest⟩
      · rintro (h | ⟨p, (rfl | hp), cur, bv, hcur, hrest⟩)
        · exact Or.inl h
        · rw [hc] at hcur; exact absurd hcur (by simp)
        · exact Or.inr ⟨p, hp, cur, bv, hcur, hrest⟩
    · simp only [List.mem_cons]
      constructor
      · rintro (h | ⟨p, hp, rest⟩)
        · exact Or.inl h
        · exact Or.inr ⟨p, Or.inr hp, rest⟩
      · rintro (h | ⟨p, (rfl | hp), cur, bv, hcur, hbv, hrest⟩)
        · exact Or.inl h
        · rw [hb] at hbv; exact absurd hbv (by simp)
        · exact Or.inr ⟨p, hp, cur, bv, hcur, hbv, hrest⟩
    · dsimp only
      by_cases hne : c = b
      · rw [if_neg (by simpa using hne)]
        simp only [List.mem_cons]
        constructor
        · rintro (h | ⟨p, hp, rest⟩)
          · exact Or.inl h
          · exact Or.inr ⟨p, Or.inr hp, rest⟩
        · rintro (h | ⟨p, (rfl | hp), cur, bv, hcur, hbv, hne2, hr⟩)
          · exact Or.inl h
          · rw [hc] at hcur
            rw [hb] at hbv
            obtain rfl : c = cur := by simpa using hcur
            obtain rfl : b = bv := by simpa using hbv
            exact absurd hne hne2
          · exact Or.inr ⟨p, hp, cur, bv, hcur, hbv, hne2, hr⟩
      · rw [if_pos (by simpa using hne)]
        simp only [List.mem_append, List.mem_cons, List.not_mem_nil, or_false]
        constructor
        · rintro ((h | hr) | ⟨p, hp, rest⟩)
          · exact Or.inl h
          · exact Or.inr ⟨k, Or.inl rfl, c, b, hc, hb, hne, hr⟩
          · exact Or.inr ⟨p, Or.inr hp, rest⟩
        · rintro (h | ⟨p, (rfl | hp), cur, bv, hcur, hbv, hne2, hr⟩)
          · exact Or.inl (Or.inl h)
          · rw [hc] at hcur
            rw [hb] at hbv
            obtain rfl : c = cur := by simpa using hcur
            obtain rfl : b = bv := by simpa using hbv
            exact Or.inl (Or.inr hr)
          · exact Or.inr ⟨p, hp, cur, bv, hcur, hbv, hne2, hr⟩

theorem bestIteration_mem (hd : PrintIteration) (tl : List PrintIteration) :
    bestIteration hd tl ∈ hd :: tl := by
  unfold bestIteration
  have h : ∀ (l S : List PrintIteration) (acc : PrintIteration),
      acc ∈ S → (∀ x ∈ l, x ∈ S) →
      l.foldl (fun acc i =>
        if (i.quality_score.getD 0) > (acc.quality_score.getD 0) then i else acc) acc ∈ S := by
    intro l
    induction l with
    | nil =>
      intro S acc ha _
      simpa using ha
    | cons x xs ih =>
      intro S acc ha hl
      rw [List.foldl_cons]
      apply ih
      · split
        · exact hl x (by simp)
        · exact ha
      · intro y hy
        exact hl y (by simp [hy])
  exact h tl (hd :: tl) hd (by simp) (fun x hx => by simp [hx])

end VibePrint

namespace VibePrint

/-- **C6** (amended).  History learning selects iterations with status
`completed`, a recorded parameter snapshot, and quality **strictly above 80**
(not ≥ 80); it takes the first best-quality one, and for each of the four key
parameters (`layer_height`, `wall_loops`, `sparse_infill_density`,
`outer_wall_speed`) whose current value differs from the stored best value it
emits a priority-3 recommendation with confidence 0.5. -/
theorem C6_history_learning (cp : SlicingParameters) (iterations : List PrintIteration) :
    (iterations.filter isSuccessful = [] → learnFromHistory cp iterations = []) ∧
    (∀ r ∈ learnFromHistory cp iterations,
      r.confidence = 1/2 ∧ r.priority = 3 ∧ r.parameter ∈ compareParams) ∧
    (∀ hd tl, iterations.filter isSuccessful = hd :: tl →
      ∀ bp, (bestIteration hd tl).parameters = some bp →
      ∀ param ∈ compareParams, ∀ current best_value,
        paramGet cp param = some current → histGet bp param = some best_value →
        current ≠ best_value →
        ∃ r ∈ learnFromHistory cp iterations,
          r.parameter = param ∧ r.current_value = current ∧
          r.suggested_value = best_value ∧ r.confidence = 1/2 ∧ r.priority = 3) := by
  refine ⟨?_, ?_, ?_⟩
  · intro h
    unfold learnFromHistory
    rw [h]
  · intro r hr
    unfold learnFromHistory at hr
    rcases hf : iterations.filter isSuccessful with _ | ⟨hd, tl⟩ <;> rw [hf] at hr
    · simp at hr
    · dsimp only at hr
      rcases hbp : (bestIteration hd tl).parameters with _ | bp <;> rw [hbp] at hr
      · simp at hr
      · rw [learnFold_mem] at hr
        rcases hr with h | ⟨param, hparam, cur, bv, -, -, -, rfl⟩
        · simp at h
        · exact ⟨rfl, rfl, hparam⟩
  · intro hd tl hf bp hbp param hparam current best_value hcur hbv hne
    unfold learnFromHistory
    rw [hf]
    dsimp only
    rw [hbp]
    refine ⟨⟨param, current, best_value, "Value used in successful print", 1/2, 3⟩, ?_, rfl,
      rfl, rfl, rfl, rfl⟩
    rw [learnFold_mem]
    exact Or.inr ⟨param, hparam, current, best_value, hcur, hbv, hne, rfl⟩

/-- Witness for `C6_history_learning` at a concrete history. -/
theorem C6_witness :
    (([⟨"completed", some 90, some { outer_wall_speed := some 50 }⟩] :
        List PrintIteration).filter isSuccessful =
      [⟨"completed", some 90, some { outer_wall_speed := some 50 }⟩]) ∧
    ∃ r ∈ learnFromHistory {}
        [⟨"completed", some 90, some { outer_wall_speed := some 50 }⟩],
      r.parameter = "outer_wall_speed" ∧ r.current_value = 60 ∧
      r.suggested_value = 50 ∧ r.confidence = 1/2 ∧ r.priority = 3 := by
  have hfilter : ([⟨"completed", some 90, some { outer_wall_speed := some 50 }⟩] :
      List PrintIteration).filter isSuccessful =
      [⟨"completed", some 90, some { outer_wall_speed := some 50 }⟩] := by
    simp only [List.filter, isSuccessful]
    norm_num
  refine ⟨hfilter, ?_⟩
  exact (C6_history_learning {}
      [⟨"completed", some 90, some { outer_wall_speed := some 50 }⟩]).2.2
    _ _ hfilter { outer_wall_speed := some 50 } rfl "outer_wall_speed" (by simp [compareParams])
    60 50 rfl rfl (by norm_num)

/-- **C6 counterexample.**  An iteration at quality exactly 80 is *not*
selected (the filter is strict `> 80`), so no recommendation is emitted even
though the stored `layer_height` differs from the current one. -/
theorem C6_counterexample :
    learnFromHistory {} [⟨"completed", some 80, some { layer_height := some (3/10) }⟩] =
      [] ∧
    paramGet {} "layer_height" = some (1/5) ∧ (1/5 : ℚ) ≠ 3/10 := by
  refine ⟨?_, rfl, by norm_num⟩
  unfold learnFromHistory
  have h : ([⟨"completed", some 80, some { layer_height := some (3/10) }⟩] :
      List PrintIteration).filter isSuccessful = [] := by
    simp only [List.filter, isSuccessful]
    norm_num
  rw [h]

end VibePrint

namespace VibePrint

/-! ### Claim C7 — recommender dedup and ordering -/

/-- Invariant of the accumulation: parameters are pairwise distinct, and every
emitted parameter is marked seen. -/
def AccInv (acc : RecAcc) : Prop :=
  (acc.recs.map (fun r => r.parameter)).Nodup ∧
    ∀ r ∈ acc.recs, r.parameter ∈ acc.seen

theorem accInv_init : AccInv ⟨[], []⟩ := by
  constructor <;> simp [AccInv]

theorem defectRow_inv (cp : SlicingParameters) (defect : String) (acc : RecAcc)
    (row : String × ℚ × String) (h : AccInv acc) : AccInv (defectRow cp defect acc row) :=
  by
  obtain ⟨hnd, hseen⟩ := h
  obtain ⟨param, adj, reason⟩ := row
  unfold defectRow
  dsimp only
  split_ifs with hin
  · exact ⟨hnd, hseen⟩
  · rcases hp : paramGet cp param with _ | cur
    · refine ⟨hnd, fun r hr => ?_⟩
      simp only [List.mem_append]
      exact Or.inl (hseen r hr)
    · constructor
      · simp only [List.map_append, List.map_cons, List.map_nil]
        rw [List.nodup_append]
        refine ⟨hnd, by simp, ?_⟩
        intro x hx
        simp only [List.mem_singleton, List.mem_cons, List.not_mem_nil, or_false]
        intro hxp
        subst hxp
        obtain ⟨r, hr, hrp⟩ := List.mem_map.mp hx
        exact hin (hrp ▸ hseen r hr)
      · intro r hr
        simp only [List.mem_append, List.mem_cons, List.not_mem_nil, or_false] at hr
        rcases hr with hr | rfl
        · simp only [List.mem_append]
          exact Or.inl (hseen r hr)
        · simp

theorem defectRow_seen_mono (cp : SlicingParameters) (defect : String) (acc : RecAcc)
    (row : String × ℚ × String) (s : String) (h : s ∈ acc.seen) :
    s ∈ (defectRow cp defect acc row).seen := by
  obtain ⟨param, adj, reason⟩ := row
  unfold defectRow
  dsimp only
  split_ifs with hin
  · exact h
  · rcases paramGet cp param with _ | cur <;> simp [h]

theorem rowsFold_inv (cp : SlicingParameters) (defect : String)
    (rows : List (String × ℚ × String)) (acc : RecAcc) (h : AccInv acc) :
    AccInv (rows.foldl (defectRow cp defect) acc) := by
  induction rows generalizing acc with
  | nil => simpa using h
  | cons row rest ih =>
    rw [List.foldl_cons]
    exact ih _ (defectRow_inv cp defect acc row h)

theorem defectPhase_inv (cp : SlicingParameters) (defects : List String) :
    AccInv (defectPhase cp defects) := by
  unfold defectPhase
  have h : ∀ (l : List String) (acc : RecAcc), AccInv acc →
      AccInv (l.foldl (fun acc defect =>
        match defectAdjustments defect with
        | none => acc
        | some rows => rows.foldl (defectRow cp defect) acc) acc) := by
    intro l
    induction l with
    | nil =>
      intro acc h
      simpa using h
    | cons d ds ih =>
      intro acc h
      rw [List.foldl_cons]
      apply ih
      rcases defectAdjustments d with _ | rows
      · exact h
      · exact rowsFold_inv cp d rows acc h
  exact h defects ⟨[], []⟩ accInv_init

theorem qualityPhase_skip (cp : SlicingParameters) (qs : Option ℚ) (acc : RecAcc)
    (h : ∀ q, qs = some q → ¬ q < 50) : qualityPhase cp qs acc = acc := by
  unfold qualityPhase
  rcases hq : qs with _ | q
  · rfl
  · dsimp only
    rw [if_neg (h q hq)]

theorem historyPhase_inv (cp : SlicingParameters) (iterations : List PrintIteration)
    (acc : RecAcc) (h : AccInv acc) : AccInv (historyPhase cp iterations acc) := by
  unfold historyPhase
  split_ifs with hnil
  · exact h
  · have hstep : ∀ (l : List Recommendation) (a : RecAcc), AccInv a →
        AccInv (l.foldl (fun a r =>
          if r.parameter ∈ a.seen then a
          else ⟨a.recs ++ [r], a.seen ++ [r.parameter]⟩) a) := by
      intro l
      induction l with
      | nil =>
        intro a h
        simpa using h
      | cons r rs ih =>
        intro a ha
        rw [List.foldl_cons]
        apply ih
        obtain ⟨hnd, hseen⟩ := ha
        split_ifs with hin
        · exact ⟨hnd, hseen⟩
        · constructor
          · simp only [List.map_append, List.map_cons, List.map_nil]
            rw [List.nodup_append]
            refine ⟨hnd, by simp, ?_⟩
            intro x hx
            simp only [List.mem_singleton, List.mem_cons, List.not_mem_nil, or_false]
            intro hxp
            subst hxp
            obtain ⟨r', hr', hrp⟩ := List.mem_map.mp hx
            exact hin (hrp ▸ hseen r' hr')
          · intro r' hr'
            simp only [List.mem_append, List.mem_cons, List.not_mem_nil, or_false] at hr'
            rcases hr' with hr' | rfl
            · simp only [List.mem_append]
              exact Or.inl (hseen r' hr')
            · simp
    exact hstep _ acc h

theorem recLE_trans (a b c : Recommendation) (h1 : recLE a b = true)
    (h2 : recLE b c = true) : recLE a c = true := by
  unfold recLE at *
  simp only [decide_eq_true_eq] at *
  rcases h1 with h1 | ⟨h1e, h1c⟩ <;> rcases h2 with h2 | ⟨h2e, h2c⟩
  · exact Or.inl (lt_trans h1 h2)
  · exact Or.inl (h2e ▸ h1)
  · exact Or.inl (h1e ▸ h2)
  · exact Or.inr ⟨h1e.trans h2e, le_trans h2c h1c⟩

theorem recLE_total (a b : Recommendation) : (recLE a b || recLE b a) = true := by
  unfold recLE
  simp only [Bool.or_eq_true, decide_eq_true_eq]
  rcases lt_trichotomy a.priority b.priority with h | h | h
  · exact Or.inl (Or.inl h)
  · rcases le_total a.confidence b.confidence with hc | hc
    · exact Or.inr (Or.inr ⟨h.symm, hc⟩)
    · exact Or.inl (Or.inr ⟨h, hc⟩)
  · exact Or.inr (Or.inl h)

/-- **C7** (amended).  The recommendation list is always sorted ascending by
priority and, within a priority, descending by confidence.  It contains no two
entries for the same parameter **provided** the quality score is absent or at
least 50; a score below 50 appends an `outer_wall_speed` recommendation
without marking the parameter seen, so a history recommendation can duplicate
it. -/
theorem C7_dedup_and_sort (cp : SlicingParameters) (defects : List String)
    (quality_score : Option ℚ) (iterations : List PrintIteration) :
    List.Pairwise (fun a b => recLE a b = true)
      (getRecommendations cp defects quality_score iterations) ∧
    ((∀ q, quality_score = some q → ¬ q < 50) →
      ((getRecommendations cp defects quality_score iterations).map
        (fun r => r.parameter)).Nodup) := by
  constructor
  · exact List.sorted_mergeSort recLE_trans recLE_total _
  · intro hq
    unfold getRecommendations
    rw [qualityPhase_skip cp quality_score _ hq]
    have hinv := historyPhase_inv cp iterations _ (defectPhase_inv cp defects)
    have hperm := List.mergeSort_perm
      (historyPhase cp iterations (defectPhase cp defects)).recs recLE
    exact ((hperm.map (fun r => r.parameter)).nodup_iff).mpr hinv.1

/-- Witness for `C7_dedup_and_sort` at a concrete input. -/
theorem C7_witness :
    List.Pairwise (fun a b => recLE a b = true)
      (getRecommendations {} ["stringing"] none []) ∧
    ((∀ q, (none : Option ℚ) = some q → ¬ q < 50) →
      ((getRecommendations {} ["stringing"] none []).map
        (fun r => r.parameter)).Nodup) :=
  C7_dedup_and_sort {} ["stringing"] none []

end VibePrint

namespace VibePrint

/-- History record for the C7 counterexample: a successful print whose stored
outer-wall speed differs from the current one. -/
def cexIter : PrintIteration := ⟨"completed", some 90, some { outer_wall_speed := some 50 }⟩

theorem cex7_learn : learnFromHistory {} [cexIter] =
    [⟨"outer_wall_speed", 60, 50, "Value used in successful print", 1/2, 3⟩] := by
  have hfilter : ([cexIter] : List PrintIteration).filter isSuccessful = [cexIter] := by
    simp only [List.filter, isSuccessful, cexIter]
    norm_num
  unfold learnFromHistory
  rw [hfilter]
  dsimp only [bestIteration, List.foldl, cexIter, compareParams]
  simp only [List.foldl_cons, List.foldl_nil, learnStep, paramGet, histGet]
  norm_num

theorem cex7_pre :
    (historyPhase {} [cexIter] (qualityPhase {} (some 40) (defectPhase {} []))).recs =
      [⟨"outer_wall_speed", 60, max 30 (60 * (7/10)),
          "Significantly reduce speed for better quality", 3/5, 2⟩,
        ⟨"outer_wall_speed", 60, 50, "Value used in successful print", 1/2, 3⟩] := by
  have hd : defectPhase {} [] = ⟨[], []⟩ := rfl
  have hqp : qualityPhase {} (some 40) ⟨[], []⟩ =
      ⟨[⟨"outer_wall_speed", 60, max 30 (60 * (7/10)),
        "Significantly reduce speed for better quality", 3/5, 2⟩], []⟩ := by
    unfold qualityPhase
    norm_num
  rw [hd, hqp]
  unfold historyPhase
  rw [if_neg (by simp), cex7_learn]
  simp

/-- **C7 counterexample.**  With no defects, quality score 40 and one
successful history record whose outer-wall speed differs, the returned list
contains two entries for `outer_wall_speed`: the low-quality rule does not
mark the parameter as seen, so the history pass emits it again. -/
theorem C7_counterexample :
    ¬ ((getRecommendations {} [] (some 40) [cexIter]).map
      (fun r => r.parameter)).Nodup := by
  unfold getRecommendations
  have hperm := (List.mergeSort_perm
    (historyPhase {} [cexIter] (qualityPhase {} (some 40) (defectPhase {} []))).recs
    recLE).map (fun r => r.parameter)
  rw [hperm.nodup_iff, cex7_pre]
  simp

end VibePrint

namespace VibePrint

/-! ### Print controller job lifecycle

From `src/bambustudio_mcp/printer/controller.py` (`PrintJob`,
`_handle_status_update`, `pause_print`, `resume_print`, `stop_print`).
Timestamps are abstract naturals supplied as a `now` argument; the MQTT
publish side effects carry no job state and are omitted. -/

inductive PrinterState where
  | idle | printing | paused | finished | failed | preparing | slicing | unknown
  deriving DecidableEq, Repr

structure PrintJob where
  job_id : String
  status : String := "pending"
  progress_percent : ℚ := 0
  started_at : Option ℕ := none
  completed_at : Option ℕ := none
  error_message : Option String := none
  deriving DecidableEq, Repr

/-- `PrinterController._handle_status_update` restricted to the job mutation
(the parsed status's state, progress percentage and error code). -/
def handleStatusUpdate (job : PrintJob) (state : PrinterState)
    (progress_percentage : ℚ) (print_error : ℤ) (now : ℕ) : PrintJob :=
  let job :=
    if state = .printing then
      { job with
        progress_percent := progress_percentage
        status := "printing"
        started_at := if job.started_at = none then some now else job.started_at }
    else job
  let job :=
    if state = .finished then
      { job with status := "completed", progress_percent := 100, completed_at := some now }
    else job
  if state = .failed then
    { job with
        status := "failed"
        error_message := some ("Print error code: " ++ toString print_error) }
  else job

/-- `PrinterController.pause_print` (job part). -/
def pausePrint (job : Option PrintJob) : Bool × Option PrintJob :=
  match job with
  | none => (false, none)
  | some j => (true, some { j with status := "paused" })

/-- `PrinterController.resume_print` (job part). -/
def resumePrint (job : Option PrintJob) : Bool × Option PrintJob :=
  match job with
  | none => (false, none)
  | some j =>
    if j.status ≠ "paused" then (false, some j)
    else (true, some { j with status := "printing" })

/-- `PrinterController.stop_print` (job part). -/
def stopPrint (job : Option PrintJob) (now : ℕ) : Bool × Option PrintJob :=
  match job with
  | none => (false, none)
  | some j => (true, some { j with status := "cancelled", completed_at := some now })

/-- **C3** (amended).  Terminal statuses are *not* protected in general: only
`resume_print` checks the job status (it requires `paused` and leaves any
terminal job untouched), and a status report whose state is none of
printing/finished/failed leaves the job unchanged.  `pause_print`,
`stop_print`, and printing/finished/failed reports all mutate a terminal
job. -/
theorem C3_terminal_preservation (job : PrintJob)
    (hterm : job.status = "completed" ∨ job.status = "failed" ∨
      job.status = "cancelled") :
    resumePrint (some job) = (false, some job) ∧
    (∀ state progress err now, state ≠ .printing → state ≠ .finished →
      state ≠ .failed → handleStatusUpdate job state progress err now = job) := by
  constructor
  · unfold resumePrint
    dsimp only
    rw [if_pos]
    rcases hterm with h | h | h <;> rw [h] <;> simp
  · intro state progress err now h1 h2 h3
    unfold handleStatusUpdate
    rw [if_neg h1]
    dsimp only
    rw [if_neg h2, if_neg h3]

/-- Witness for `C3_terminal_preservation` on a completed job. -/
theorem C3_witness :
    resumePrint (some { job_id := "j1", status := "completed" }) =
      (false, some { job_id := "j1", status := "completed" }) ∧
    (∀ state progress err now, state ≠ .printing → state ≠ .finished →
      state ≠ .failed →
      handleStatusUpdate { job_id := "j1", status := "completed" } state progress err now =
        { job_id := "j1", status := "completed" }) :=
  C3_terminal_preservation { job_id := "j1", status := "completed" } (Or.inl rfl)

/-- **C3 counterexample.**  A completed job is mutated by `pause_print`,
by `stop_print`, and by an incoming `printing` status report — status
monotonicity after a terminal state does not hold. -/
theorem C3_counterexample :
    ((pausePrint (some { job_id := "j1", status := "completed" })).2.map
      (fun j => j.status)) = some "paused" ∧
    (handleStatusUpdate { job_id := "j1", status := "completed" }
      .printing 50 0 7).status = "printing" ∧
    ((stopPrint (some { job_id := "j1", status := "completed" }) 9).2.map
      (fun j => j.status)) = some "cancelled" ∧
    ("completed" : String) ≠ "paused" := by
  refine ⟨rfl, ?_, rfl, by simp⟩
  unfold handleStatusUpdate
  simp

end VibePrint

namespace VibePrint

/-! ### MQTT report parsing

From `src/bambustudio_mcp/printer/status.py`.  A report is modelled as an
optional `print` object whose fields are all optional and typed; within this
shape `from_mqtt_report` is total (Python field coercions like `float`/`int`
cannot fail on values of the declared types). -/

inductive GcodeState where
  | IDLE | RUNNING | PAUSE | FINISH | FAILED | UNKNOWN
  deriving DecidableEq, Repr

/-- The `GcodeState(str)` enum constructor: valid member values only. -/
def parseGcodeState : String → Option GcodeState
  | "IDLE" => some .IDLE
  | "RUNNING" => some .RUNNING
  | "PAUSE" => some .PAUSE
  | "FINISH" => some .FINISH
  | "FAILED" => some .FAILED
  | "UNKNOWN" => some .UNKNOWN
  | _ => none

/-- The fixed `state_map` (`.get(..., UNKNOWN)` default). -/
def stateMap : GcodeState → PrinterState
  | .IDLE => .idle
  | .RUNNING => .printing
  | .PAUSE => .paused
  | .FINISH => .finished
  | .FAILED => .failed
  | .UNKNOWN => .unknown

/-- A `TemperatureReading` (current, target). -/
structure StatusTemp where
  current : ℚ
  target : ℚ
  deriving DecidableEq, Repr

/-- The keys of the `print` object that the parser reads. -/
structure MqttPrintData where
  gcode_state : Option String := none
  nozzle_temper : Option ℚ := none
  nozzle_target_temper : Option ℚ := none
  bed_temper : Option ℚ := none
  bed_target_temper : Option ℚ := none
  chamber_temper : Option ℚ := none
  mc_percent : Option ℚ := none
  layer_num : Option ℤ := none
  total_layer_num : Option ℤ := none
  mc_print_time : Option ℤ := none
  mc_remaining_time : Option ℤ := none
  gcode_file : Option String := none
  subtask_name : Option String := none
  print_type : Option String := none
  cooling_fan_speed : Option ℤ := none
  spd_lvl : Option ℤ := none
  wifi_signal : Option ℤ := none
  print_error : Option ℤ := none
  hw_switch_state : Option ℤ := none
  deriving DecidableEq, Repr

/-- An MQTT report: the top-level `print` object may be absent
(`report.get("print", {})`). -/
structure MqttReport where
  print : Option MqttPrintData := none
  deriving DecidableEq, Repr

structure PrintProgress where
  percentage : ℚ := 0
  layer_current : ℤ := 0
  layer_total : ℤ := 0
  time_elapsed_minutes : ℤ := 0
  time_remaining_minutes : ℤ := 0
  gcode_state : GcodeState := .IDLE
  deriving DecidableEq, Repr

structure PrinterStatus where
  connected : Bool := false
  state : PrinterState := .unknown
  gcode_state : GcodeState := .UNKNOWN
  nozzle_temp : Option StatusTemp := none
  bed_temp : Option StatusTemp := none
  chamber_temp : Option ℚ := none
  progress : PrintProgress := {}
  gcode_file : Option String := none
  subtask_name : Option String := none
  print_type : Option String := none
  fan_speed_percent : ℤ := 0
  speed_level : ℤ := 1
  wifi_signal : ℤ := 0
  print_error : ℤ := 0
  hw_switch_state : ℤ := 0
  deriving DecidableEq, Repr

/-- `PrinterStatus.from_mqtt_report`. -/
def fromMqttReport (report : MqttReport) : PrinterStatus :=
  let pd := report.print.getD {}
  let gcode_state_str := pd.gcode_state.getD "UNKNOWN"
  let gs := (parseGcodeState gcode_state_str).getD .UNKNOWN
  let state := stateMap gs
  let nozzle :=
    match pd.nozzle_temper, pd.nozzle_target_temper with
    | some c, some t => some (⟨c, t⟩ : StatusTemp)
    | _, _ => none
  let bed :=
    match pd.bed_temper, pd.bed_target_temper with
    | some c, some t => some (⟨c, t⟩ : StatusTemp)
    | _, _ => none
  { connected := true
    state := state
    gcode_state := gs
    nozzle_temp := nozzle
    bed_temp := bed
    chamber_temp := pd.chamber_temper
    progress :=
      { percentage := pd.mc_percent.getD 0
        layer_current := pd.layer_num.getD 0
        layer_total := pd.total_layer_num.getD 0
        time_elapsed_minutes := (pd.mc_print_time.getD 0).fdiv 60
        time_remaining_minutes := pd.mc_remaining_time.getD 0
        gcode_state := gs }
    gcode_file := pd.gcode_file
    subtask_name := pd.subtask_name
    print_type := pd.print_type
    fan_speed_percent := pd.cooling_fan_speed.getD 0
    speed_level := pd.spd_lvl.getD 1
    wifi_signal := pd.wifi_signal.getD 0
    print_error := pd.print_error.getD 0
    hw_switch_state := pd.hw_switch_state.getD 0 }

/-- **C9** (amended).  Parsing is total on report objects of the expected
shape: an absent `print` object or absent/unrecognized `gcode_state` yields
the UNKNOWN operational state, and numeric progress fields default to 0 —
but missing temperature fields leave the corresponding readings **absent
(`None`)**, not 0-valued sentinel readings. -/
theorem C9_report_parsing (report : MqttReport) :
    (report.print = none →
      (fromMqttReport report).state = .unknown ∧
      (fromMqttReport report).nozzle_temp = none ∧
      (fromMqttReport report).bed_temp = none ∧
      (fromMqttReport report).progress.percentage = 0) ∧
    (∀ pd, report.print = some pd →
      ((pd.gcode_state = none → (fromMqttReport report).state = .unknown) ∧
       (∀ s, pd.gcode_state = some s → parseGcodeState s = none →
         (fromMqttReport report).state = .unknown) ∧
       (pd.nozzle_temper = none → (fromMqttReport report).nozzle_temp = none) ∧
       (pd.bed_temper = none → (fromMqttReport report).bed_temp = none) ∧
       (pd.mc_percent = none → (fromMqttReport report).progress.percentage = 0))) := by
  constructor
  · intro h
    unfold fromMqttReport
    rw [h]
    refine ⟨rfl, rfl, rfl, rfl⟩
  · intro pd h
    unfold fromMqttReport
    rw [h]
    refine ⟨?_, ?_, ?_, ?_, ?_⟩
    · intro hg
      simp only [Option.getD_some]
      rw [hg]
      rfl
    · intro s hs hps
      simp only [Option.getD_some]
      rw [hs]
      simp only [Option.getD_some]
      rw [hps]
      rfl
    · intro hn
      simp only [Option.getD_some]
      rw [hn]
    · intro hb
      simp only [Option.getD_some]
      rw [hb]
    · intro hp
      simp only [Option.getD_some]
      rw [hp]
      rfl

/-- Witness for `C9_report_parsing` on the empty report. -/
theorem C9_witness :
    ((⟨none⟩ : MqttReport).print = none →
      (fromMqttReport ⟨none⟩).state = .unknown ∧
      (fromMqttReport ⟨none⟩).nozzle_temp = none ∧
      (fromMqttReport ⟨none⟩).bed_temp = none ∧
      (fromMqttReport ⟨none⟩).progress.percentage = 0) ∧
    (∀ pd, (⟨none⟩ : MqttReport).print = some pd →
      (((pd.gcode_state = none → (fromMqttReport ⟨none⟩).state = .unknown) ∧
       (∀ s, pd.gcode_state = some s → parseGcodeState s = none →
         (fromMqttReport ⟨none⟩).state = .unknown) ∧
       (pd.nozzle_temper = none → (fromMqttReport ⟨none⟩).nozzle_temp = none) ∧
       (pd.bed_temper = none → (fromMqttReport ⟨none⟩).bed_temp = none) ∧
       (pd.mc_percent = none → (fromMqttReport ⟨none⟩).progress.percentage = 0)))) :=
  C9_report_parsing ⟨none⟩

/-- **C9 counterexample.**  On a report with no temperature fields the parsed
nozzle reading is absent (`None`), not the claimed 0-valued sentinel. -/
theorem C9_counterexample :
    (fromMqttReport ⟨none⟩).nozzle_temp = none ∧
    (fromMqttReport ⟨none⟩).nozzle_temp ≠ some ⟨0, 0⟩ := by
  constructor
  · rfl
  · intro h
    simp [fromMqttReport] at h

end VibePrint

namespace VibePrint

/-! ### Iteration store

From `src/bambustudio_mcp/iteration/tracker.py`.  The SQLite table is a map
from `iteration_id` to the stored document, modelled as an association list;
`update_iteration` is the SQL `UPDATE ... WHERE iteration_id = ?` (it
replaces matching rows and inserts nothing). -/

structure IterationRecord where
  iteration_id : String
  model_name : String
  status : String := "pending"
  completed_at : Option ℕ := none
  quality_score : Option ℚ := none
  defects_detected : List String := []
  defect_count : ℕ := 0
  notes : String := ""
  print_time_minutes : Option ℤ := none
  improvement_suggestions : List String := []
  deriving DecidableEq, Repr

/-- The persisted rows, keyed by primary key `iteration_id`. -/
def IterationStore := List (String × IterationRecord)

/-- `IterationTracker.get_iteration`: the row with the given id, or absent. -/
def getIteration (store : IterationStore) (id : String) : Option IterationRecord :=
  List.lookup id store

/-- `IterationTracker.update_iteration`. -/
def updateIteration (store : IterationStore) (it : IterationRecord) : IterationStore :=
  store.map (fun kv => if kv.1 = it.iteration_id then (kv.1, it) else kv)

/-- `IterationTracker._generate_suggestions`. -/
def generateSuggestions (defects : List String) : List String :=
  (if "layer_shift" ∈ defects then
    ["Check belt tension and mechanical stability", "Reduce print speed",
     "Ensure printer is on stable surface"] else []) ++
  (if "stringing" ∈ defects then
    ["Increase retraction distance (try +0.5mm)", "Increase retraction speed (try +10mm/s)",
     "Lower nozzle temperature (try -5C)"] else []) ++
  (if "warping" ∈ defects then
    ["Increase bed temperature (try +5C)", "Add or increase brim width",
     "Use enclosure if available", "Slow down first layer"] else []) ++
  (if "blob" ∈ defects then
    ["Enable coasting in slicer", "Reduce extrusion multiplier slightly",
     "Adjust seam position"] else []) ++
  (if "spaghetti" ∈ defects then
    ["Check bed adhesion - clean and level bed", "Increase first layer height",
     "Slow down first layer significantly", "Use brim or raft for better adhesion"]
   else []) ++
  (if "under_extrusion" ∈ defects then
    ["Increase flow rate/extrusion multiplier", "Check for clogged nozzle",
     "Increase nozzle temperature"] else []) ++
  (if "over_extrusion" ∈ defects then
    ["Decrease flow rate/extrusion multiplier", "Calibrate E-steps"] else [])

/-- `IterationTracker.record_outcome`: read, mutate, write; on a missing id
it returns before any write. -/
def recordOutcome (store : IterationStore) (id status : String)
    (quality_score : Option ℚ) (defects : Option (List String)) (notes : String)
    (print_time_minutes : Option ℤ) (now : ℕ) :
    Option IterationRecord × IterationStore :=
  match getIteration store id with
  | none => (none, store)
  | some it =>
    let ds := defects.getD []
    let it' := { it with
      status := status
      completed_at := some now
      quality_score := quality_score
      defects_detected := ds
      defect_count := ds.length
      notes := notes
      print_time_minutes := print_time_minutes
      improvement_suggestions := generateSuggestions ds }
    (some it', updateIteration store it')

/-- **C10.**  `record_outcome` on an id not present in the store returns
absent and performs no write: the store is unchanged. -/
theorem C10_record_outcome_missing (store : IterationStore) (id status : String)
    (quality_score : Option ℚ) (defects : Option (List String)) (notes : String)
    (print_time_minutes : Option ℤ) (now : ℕ)
    (h : getIteration store id = none) :
    recordOutcome store id status quality_score defects notes print_time_minutes now =
      (none, store) := by
  unfold recordOutcome
  rw [h]

/-- Witness for `C10_record_outcome_missing` on a concrete store. -/
theorem C10_witness :
    recordOutcome [("a1", { iteration_id := "a1", model_name := "m" })]
      "zz" "completed" (some 90) none "" none 3 =
      (none, [("a1", { iteration_id := "a1", model_name := "m" })]) :=
  C10_record_outcome_missing _ _ _ _ _ _ _ _ (by simp [getIteration])

end VibePrint

namespace VibePrint

/-! ### Guided workflow checkpoints

From `src/bambustudio_mcp/wizard/guided_workflow.py`.  Checkpoint titles,
questions, suggestions and answers never influence checkpoint statuses or the
stage dispatch, so a checkpoint is modelled by its stage and status.  The
per-stage recommendation content (materials, nozzles, slicing settings) is
likewise status-irrelevant and omitted here. -/

inductive WorkflowStage where
  | requirements | design_review | material_select | nozzle_select
  | slicing_review | final_review | generation | slicing_exec
  | ready | printing | complete
  deriving DecidableEq, Repr

inductive CheckpointStatus where
  | pending | waiting_input | approved | skipped | failed
  deriving DecidableEq, Repr

structure Checkpoint where
  stage : WorkflowStage
  status : CheckpointStatus
  deriving DecidableEq, Repr

structure WFState where
  current_stage : WorkflowStage
  checkpoints : List Checkpoint
  is_complete : Bool
  deriving DecidableEq, Repr

/-- `GuidedWorkflow.start_workflow`: with a non-empty description,
`_process_requirements` appends one `waiting_input` requirements checkpoint. -/
def startWorkflow (has_description : Bool) : WFState :=
  if has_description then
    { current_stage := .requirements
      checkpoints := [⟨.requirements, .waiting_input⟩]
      is_complete := false }
  else
    { current_stage := .requirements, checkpoints := [], is_complete := false }

/-- Common shape of every `advance_to_*` method: set the stage and append one
checkpoint in `waiting_input`. -/
def appendCheckpoint (s : WFState) (stage : WorkflowStage) : WFState :=
  { s with
    current_stage := stage
    checkpoints := s.checkpoints ++ [⟨stage, .waiting_input⟩] }

/-- Mark the first `waiting_input` checkpoint approved, if any. -/
def markFirstWaiting : List Checkpoint → List Checkpoint
  | [] => []
  | c :: rest =>
    if c.status = .waiting_input then { c with status := .approved } :: rest
    else c :: markFirstWaiting rest

/-- `get_current_checkpoint` scans from the end; approving mutates the *last*
`waiting_input` checkpoint. -/
def markLastWaiting (l : List Checkpoint) : List Checkpoint :=
  (markFirstWaiting l.reverse).reverse

/-- `GuidedWorkflow.approve_checkpoint`: approve the current checkpoint, then
dispatch on the current stage. -/
def approveCheckpoint (s : WFState) : WFState :=
  let s := { s with checkpoints := markLastWaiting s.checkpoints }
  match s.current_stage with
  | .requirements => appendCheckpoint s .design_review
  | .design_review => appendCheckpoint s .material_select
  | .material_select => appendCheckpoint s .nozzle_select
  | .nozzle_select => appendCheckpoint s .slicing_review
  | .slicing_review => appendCheckpoint s .final_review
  | .final_review => { s with current_stage := .ready, is_complete := true }
  | _ => s

/-- The externally driven operations of the claim. -/
inductive WFOp where
  | start (has_description : Bool)
  | approve
  deriving DecidableEq, Repr

/-- One operation on the (possibly absent) workflow state. -/
def stepOp : Option WFState → WFOp → Option WFState
  | _, .start d => some (startWorkflow d)
  | none, .approve => none
  | some s, .approve => some (approveCheckpoint s)

def runOps (ops : List WFOp) : Option WFState := ops.foldl stepOp none

/-- Number of `waiting_input` checkpoints. -/
def countWaiting (l : List Checkpoint) : ℕ :=
  (l.filter (fun c => c.status = .waiting_input)).length

theorem countWaiting_markFirst (l : List Checkpoint) (h : countWaiting l ≤ 1) :
    countWaiting (markFirstWaiting l) = 0 := by
  induction l with
  | nil => rfl
  | cons c rest ih =>
    unfold markFirstWaiting
    by_cases hc : c.status = .waiting_input
    · rw [if_pos hc]
      unfold countWaiting at h ⊢
      rw [List.filter_cons] at h ⊢
      rw [if_pos (by simpa using hc)] at h
      rw [if_neg (by simp)]
      simp only [List.length_cons] at h
      omega
    · rw [if_neg hc]
      unfold countWaiting at h ⊢
      rw [List.filter_cons] at h ⊢
      rw [if_neg (by simpa using hc)] at h
      rw [if_neg (by simpa using hc)]
      exact ih h

theorem countWaiting_reverse (l : List Checkpoint) :
    countWaiting l.reverse = countWaiting l := by
  unfold countWaiting
  rw [List.filter_reverse, List.length_reverse]

theorem countWaiting_markLast (l : List Checkpoint) (h : countWaiting l ≤ 1) :
    countWaiting (markLastWaiting l) = 0 := by
  unfold markLastWaiting
  rw [countWaiting_reverse]
  exact countWaiting_markFirst l.reverse (by rw [countWaiting_reverse]; exact h)

theorem countWaiting_append_one (l : List Checkpoint) (c : Checkpoint) :
    countWaiting (l ++ [c]) =
      countWaiting l + (if c.status = .waiting_input then 1 else 0) := by
  unfold countWaiting
  rw [List.filter_append, List.length_append, List.filter_cons]
  by_cases h : c.status = .waiting_input
  · simp [h]
  · simp [h]

theorem approveCheckpoint_inv (s : WFState) (h : countWaiting s.checkpoints ≤ 1) :
    countWaiting (approveCheckpoint s).checkpoints ≤ 1 := by
  unfold approveCheckpoint
  have h0 := countWaiting_markLast s.checkpoints h
  rcases s.current_stage <;>
    simp only [appendCheckpoint, countWaiting_append_one, h0] <;> simp [h0]

theorem startWorkflow_inv (d : Bool) : countWaiting (startWorkflow d).checkpoints ≤ 1 := by
  unfold startWorkflow
  rcases d <;> simp [countWaiting]

theorem runOps_inv (ops : List WFOp) :
    ∀ s, runOps ops = some s → countWaiting s.checkpoints ≤ 1 := by
  unfold runOps
  have h : ∀ (l : List WFOp) (acc : Option WFState),
      (∀ s, acc = some s → countWaiting s.checkpoints ≤ 1) →
      ∀ s, l.foldl stepOp acc = some s → countWaiting s.checkpoints ≤ 1 := by
    intro l
    induction l with
    | nil =>
      intro acc hacc s hs
      exact hacc s hs
    | cons op rest ih =>
      intro acc hacc s hs
      rw [List.foldl_cons] at hs
      apply ih (stepOp acc op) _ s hs
      intro s' hs'
      rcases op with d | _
      · simp only [stepOp] at hs'
        obtain rfl : startWorkflow d = s' := by simpa using hs'
        exact startWorkflow_inv d
      · rcases acc with _ | a
        · simp [stepOp] at hs'
        · simp only [stepOp] at hs'
          obtain rfl : approveCheckpoint a = s' := by simpa using hs'
          exact approveCheckpoint_inv a (hacc a rfl)
  exact h ops none (by simp)

/-- **C8** (amended).  After any sequence of start-workflow /
approve-checkpoint operations at most one checkpoint is `waiting_input`
(workflow linearity holds); approving appends exactly one new `waiting_input`
checkpoint for the next stage at the requirements, design-review, material,
nozzle and slicing-review stages, but approving the **final-review**
checkpoint appends none — it marks the workflow complete instead. -/
theorem C8_workflow_linearity :
    (∀ ops : List WFOp, ∀ s, runOps ops = some s →
      countWaiting s.checkpoints ≤ 1) ∧
    (∀ s : WFState,
      (s.current_stage = .requirements ∨ s.current_stage = .design_review ∨
       s.current_stage = .material_select ∨ s.current_stage = .nozzle_select ∨
       s.current_stage = .slicing_review) →
      (approveCheckpoint s).checkpoints.length = s.checkpoints.length + 1) ∧
    (∀ s : WFState, s.current_stage = .final_review →
      (approveCheckpoint s).checkpoints.length = s.checkpoints.length ∧
      (approveCheckpoint s).is_complete = true) := by
  have hlen : ∀ l : List Checkpoint, (markLastWaiting l).length = l.length := by
    intro l
    have hm : ∀ m : List Checkpoint, (markFirstWaiting m).length = m.length := by
      intro m
      induction m with
      | nil => rfl
      | cons c rest ih =>
        unfold markFirstWaiting
        split_ifs <;> simp [ih]
    unfold markLastWaiting
    rw [List.length_reverse, hm, List.length_reverse]
  refine ⟨fun ops => runOps_inv ops, ?_, ?_⟩
  · intro s hs
    unfold approveCheckpoint
    rcases hs with h | h | h | h | h <;> rw [h] <;>
      simp [appendCheckpoint, hlen]
  · intro s hs
    unfold approveCheckpoint
    rw [hs]
    exact ⟨hlen s.checkpoints, rfl⟩

/-- **C8 counterexample.**  Walking a workflow to final review gives six
checkpoints; approving the final-review checkpoint appends none (still six),
refuting "approving … appends exactly one new checkpoint". -/
theorem C8_counterexample :
    (runOps [.start true, .approve, .approve, .approve, .approve, .approve]).map
      (fun s => s.checkpoints.length) = some 6 ∧
    (runOps [.start true, .approve, .approve, .approve, .approve, .approve,
      .approve]).map (fun s => s.checkpoints.length) = some 6 ∧
    (runOps [.start true, .approve, .approve, .approve, .approve, .approve,
      .approve]).map (fun s => s.is_complete) = some true := by
  decide

end VibePrint
